import Mathlib

/-!
# The HTML report renderer of goaccess (`src/output.c`)

A shallow embedding of the panel rendering pipeline of `output.c`:
the escaping routine `clean_output`, the module maxima `get_max_hit` and
`get_max_visitor`, the bar scaler `print_graph`, the row emitters
`print_metrics`, `print_html_sub_items`, `print_html_data` and the three
render strategies.

The output stream `FILE *fp` is modelled by the list of characters written
so far; every `print_*` function takes the stream and returns the stream
extended by what the C function writes (explicit state passing).
C strings are lists of characters (the bytes before the terminating NUL);
all `char *` arguments are assumed to point to a string.
Collaborators that live outside `output.c` (number formatting under the
current locale, `filesize_str`, `usecs_to_str`, `module_to_*`,
`set_data_metrics`, the macro `OUTPUT_N`) are fields of `Env`.
-/

namespace GoAccess

/-! ## Data model -/

/-- The output stream: the characters written so far. -/
abbrev FILE := List Char

/-- Writing an already formatted text to the stream. -/
def fprintf (fp : FILE) (s : List Char) : FILE := fp ++ s

/-- Writing one character to the stream. -/
def fputc (c : Char) (fp : FILE) : FILE := fp ++ [c]

/-- The enumeration `GModule`, in enumeration order (`GEO_LOCATION` exists
only when the geolocation library is compiled in). -/
inductive GModule where
  | VISITORS
  | REQUESTS
  | REQUESTS_STATIC
  | NOT_FOUND
  | HOSTS
  | OS
  | BROWSERS
  | REFERRERS
  | REFERRING_SITES
  | KEYPHRASES
  | GEO_LOCATION
  | STATUS_CODES
  deriving DecidableEq, Repr

/-- The three render strategies a panel can point to (the function pointer
`render` of `GOutput`). -/
inductive Render where
  | print_html_visitors
  | print_html_requests
  | print_html_common
  deriving DecidableEq, Repr

/-- A row of the panel registry (`GOutput`): the module, its render strategy
and the column flags, in the order of the initialisers of `paneling`.
The flags are only ever tested for being nonzero. -/
structure GOutput where
  module : GModule
  render : Render
  visitors : Bool
  hits : Bool
  percent : Bool
  bw : Bool
  avgts : Bool
  protocol : Bool
  method : Bool
  data : Bool
  graph : Bool
  sub_graph : Bool
  deriving DecidableEq, Repr

/-- The metrics of one entry (`GMetrics`): the fields read by `output.c`.
`percent` is a C `float`, modelled by a rational. -/
structure GMetrics where
  data : List Char
  method : List Char
  protocol : List Char
  percent : ℚ
  hits : Int
  visitors : Int
  bw_nbw : Nat
  avgts_nts : Nat

/-- A child of a detail list (`GSubItem`). -/
structure GSubItem where
  metrics : GMetrics

/-- A detail list (`GSubList`): the chain of children reached from `head`
by following `next`. -/
structure GSubList where
  head : List GSubItem

/-- One ranked entry of a holder (`GHolderItem`); `sub_list` may be NULL. -/
structure GHolderItem where
  metrics : GMetrics
  sub_list : Option GSubList

/-- The result set of one module (`GHolder`): `items` is the array the
pointer `h->items` addresses, `idx` the number of entries stored in it. -/
structure GHolder where
  items : Nat → GHolderItem
  idx : Nat
  module : GModule
  sub_items_size : Nat

/-- The configuration bundle `conf` as far as the renderer reads it. -/
structure GConf where
  serve_usecs : Bool
  append_protocol : Bool
  append_method : Bool
  ifile : Option (List Char)

/-- Collaborators defined outside `output.c`. -/
structure Env where
  /-- The display cap, the macro `OUTPUT_N`. -/
  OUTPUT_N : Nat
  /-- The conversion `%'d` of printf under the current numeric locale. -/
  fmt_num : Int → List Char
  /-- The conversion `%4.2f` of printf under the current numeric locale. -/
  fmt_percent : ℚ → List Char
  /-- The conversion `%f` of printf under the POSIX locale. -/
  fmt_float : ℚ → List Char
  filesize_str : Nat → List Char
  usecs_to_str : Nat → List Char
  module_to_head : GModule → List Char
  module_to_id : GModule → Option (List Char)
  module_to_desc : GModule → List Char
  module_to_label : GModule → List Char
  /-- The copy of an entry's metrics with its derived values, for a given
  total of processed requests. -/
  set_data_metrics : GMetrics → Int → GMetrics

/-- The conversion `%d` of printf: the decimal digits, with a sign. -/
def fmt_d (n : Int) : List Char := (toString n).toList

/-- The registry `paneling`; `geoip` tells whether the geolocation row is
compiled in. -/
def paneling (geoip : Bool) : List GOutput :=
  [ ⟨.VISITORS, .print_html_visitors, true, true, true, true, true, false, false, true, true, false⟩,
    ⟨.REQUESTS, .print_html_requests, true, true, true, true, true, true, true, true, false, false⟩,
    ⟨.REQUESTS_STATIC, .print_html_requests, true, true, true, true, true, true, true, true, false, false⟩,
    ⟨.NOT_FOUND, .print_html_requests, true, true, true, true, true, true, true, true, false, false⟩,
    ⟨.HOSTS, .print_html_common, true, true, true, true, true, false, false, true, true, false⟩,
    ⟨.OS, .print_html_common, true, true, true, true, true, false, false, true, true, true⟩,
    ⟨.BROWSERS, .print_html_common, true, true, true, true, true, false, false, true, true, true⟩,
    ⟨.REFERRERS, .print_html_common, true, true, true, true, true, false, false, true, false, false⟩,
    ⟨.REFERRING_SITES, .print_html_common, true, true, true, true, true, false, false, true, false, false⟩,
    ⟨.KEYPHRASES, .print_html_common, true, true, true, true, true, false, false, true, false, false⟩ ]
  ++ (if geoip then
    [ ⟨.GEO_LOCATION, .print_html_common, true, true, true, true, true, false, false, true, false, false⟩ ]
    else [])
  ++ [ ⟨.STATUS_CODES, .print_html_common, true, true, true, true, true, false, false, true, false, false⟩ ]

/-! ## Module maxima -/

/-- The loop of `get_max_visitor`: `n` iterations are left, `i` is the
loop index and `max` the running maximum. -/
def get_max_visitor_loop (h : GHolder) : Nat → Nat → Int → Int
  | 0, _, max => max
  | n + 1, i, max =>
    let cur := (h.items i).metrics.visitors
    get_max_visitor_loop h n (i + 1) (if cur > max then cur else max)

def get_max_visitor (h : GHolder) : Int :=
  get_max_visitor_loop h h.idx 0 0

/-- The loop of `get_max_hit`. -/
def get_max_hit_loop (h : GHolder) : Nat → Nat → Int → Int
  | 0, _, max => max
  | n + 1, i, max =>
    let cur := (h.items i).metrics.hits
    get_max_hit_loop h n (i + 1) (if cur > max then cur else max)

def get_max_hit (h : GHolder) : Int :=
  get_max_hit_loop h h.idx 0 0

/-! ## Escaping -/

/-- The routine `clean_output`: the `while (*s)` loop over the string, the
`switch` being the chain of tests on the current character. -/
def clean_output (fp : FILE) : List Char → FILE
  | [] => fp
  | c :: s =>
    clean_output
      (if c = Char.ofNat 39 then fprintf fp "&#39;".toList
       else if c = '"' then fprintf fp "&#34;".toList
       else if c = '&' then fprintf fp "&amp;".toList
       else if c = '<' then fprintf fp "&lt;".toList
       else if c = '>' then fprintf fp "&gt;".toList
       else if c = ' ' then fprintf fp "&nbsp;".toList
       else fputc c fp) s

/-- The fixed substitution of the specification: the image of one
character under the escaping map. -/
def entity (c : Char) : List Char :=
  if c = Char.ofNat 39 then "&#39;".toList
  else if c = '"' then "&#34;".toList
  else if c = '&' then "&amp;".toList
  else if c = '<' then "&lt;".toList
  else if c = '>' then "&gt;".toList
  else if c = ' ' then "&nbsp;".toList
  else [c]

/-- The escaped form of a string according to the specification: the
concatenation, in order, of the images of its characters. -/
def escapeForMarkup (s : List Char) : List Char :=
  s.flatMap entity

/-! ## Table scaffolding -/

def print_html_h2 (fp : FILE) (title : List Char) (id : Option (List Char)) : FILE :=
  match id with
  | some id => fprintf fp ("<h2 id=\"".toList ++ id ++ "\">".toList ++ title ++ "</h2>".toList)
  | none => fprintf fp ("<h2>".toList ++ title ++ "</h2>".toList)

def print_p (fp : FILE) (paragraph : List Char) : FILE :=
  fprintf fp ("<p>".toList ++ paragraph ++ "</p>".toList)

def print_html_begin_table (fp : FILE) : FILE :=
  fprintf fp "<table class=\"pure-table\">\n".toList

def print_html_end_table (fp : FILE) : FILE :=
  fprintf fp "</table>\n".toList

def print_html_begin_thead (fp : FILE) : FILE :=
  fprintf fp "<thead>\n".toList

def print_html_end_thead (fp : FILE) : FILE :=
  fprintf fp "</thead>\n".toList

def print_html_begin_tbody (fp : FILE) : FILE :=
  fprintf fp "<tbody>\n".toList

def print_html_end_tbody (fp : FILE) : FILE :=
  fprintf fp "</tbody>\n".toList

def print_html_begin_tr (fp : FILE) (hide sub : Bool) : FILE :=
  if hide then
    fprintf fp ("<tr class='hide ".toList ++ (if sub then "sub".toList else "root".toList)
      ++ "'>".toList)
  else
    fprintf fp ("<tr class='".toList ++ (if sub then "sub".toList else "root".toList)
      ++ "'>".toList)

def print_html_end_tr (fp : FILE) : FILE :=
  fprintf fp "</tr>".toList

def print_table_head (env : Env) (fp : FILE) (module : GModule) : FILE :=
  let fp := print_html_h2 fp (env.module_to_head module) (env.module_to_id module)
  print_p fp (env.module_to_desc module)

/-! ## The bar scaler -/

/-- Modelled from the spec: `get_percentage` is defined outside `output.c`;
the share of `hit` in `total` as a percentage, `hit * 100 / total`, the C
`float` being a rational. -/
def get_percentage (total hit : Int) : ℚ :=
  ((hit * 100 : Int) : ℚ) / (total : ℚ)

/-- The cast `(int)` of a `float`: truncation towards zero. -/
def int_of_float (q : ℚ) : Int :=
  if 0 ≤ q then ⌊q⌋ else ⌈q⌉

/-- The local `lh` of `print_graph` once clamped (`lh = lh < 1 ? 1 : lh`):
the width of the primary bar. -/
def print_graph_lh (max_hit hits : Int) : ℚ :=
  let lh := get_percentage max_hit hits
  if lh < 1 then 1 else lh

/-- The local `lv` of `print_graph` once clamped (`lv = lv < 1 ? 1 : lv`):
the width of the secondary bar. -/
def print_graph_lv (max_vis visitors : Int) : ℚ :=
  let lv := get_percentage max_vis visitors
  if lv < 1 then 1 else lv

def print_graph (env : Env) (fp : FILE) (max_hit max_vis hits visitors : Int) : FILE :=
  let c := "class='bar'".toList
  let lh := print_graph_lh max_hit hits
  let fp := fprintf fp "<td class='graph'>".toList
  let h : Int := if max_vis ≠ 0 then 8 else 16
  let fp := fprintf fp ("<div title='Hits:".toList ++ fmt_d (int_of_float lh) ++ "%' ".toList
    ++ c ++ " style='width:".toList ++ env.fmt_float lh ++ "%;height:".toList ++ fmt_d h
    ++ "px'></div>".toList)
  let fp :=
    if max_vis ≠ 0 then
      let c := "class='bar light'".toList
      let lv := print_graph_lv max_vis visitors
      fprintf fp ("<div title='Visitors: ".toList ++ fmt_d (int_of_float lv) ++ "%' ".toList
        ++ c ++ " style='width:".toList ++ env.fmt_float lv ++ "%;height:".toList ++ fmt_d h
        ++ "px'></div>".toList)
    else fp
  fprintf fp "</td>\n".toList

/-! ## Cells of a row -/

def print_metric_hits (env : Env) (fp : FILE) (nmetrics : GMetrics) : FILE :=
  fprintf fp ("<td class='num'>".toList ++ env.fmt_num nmetrics.hits ++ "</td>".toList)

def print_metric_visitors (env : Env) (fp : FILE) (nmetrics : GMetrics) : FILE :=
  fprintf fp ("<td class='num'>".toList ++ env.fmt_num nmetrics.visitors ++ "</td>".toList)

def print_metric_percent (env : Env) (fp : FILE) (nmetrics : GMetrics) (max_hit : Bool) : FILE :=
  let fp := fprintf fp "<td class='num'>".toList
  let fp := fprintf fp ("<span class='".toList ++ (if max_hit then "max".toList else [])
    ++ "'>".toList ++ env.fmt_percent nmetrics.percent ++ "%</span>".toList)
  fprintf fp "</td>".toList

def print_metric_bw (env : Env) (fp : FILE) (nmetrics : GMetrics) : FILE :=
  let bw := env.filesize_str nmetrics.bw_nbw
  let fp := fprintf fp "<td class='num'>".toList
  let fp := clean_output fp bw
  fprintf fp "</td>".toList

def print_metric_avgts (env : Env) (conf : GConf) (fp : FILE) (nmetrics : GMetrics) : FILE :=
  if !conf.serve_usecs then fp
  else
    let ts := env.usecs_to_str nmetrics.avgts_nts
    let fp := fprintf fp "<td class='num'>".toList
    let fp := clean_output fp ts
    fprintf fp "</td>".toList

def print_metric_data (fp : FILE) (nmetrics : GMetrics) : FILE :=
  let fp := fprintf fp "<td>".toList
  let fp := clean_output fp nmetrics.data
  fprintf fp "</td>".toList

def print_metric_protocol (conf : GConf) (fp : FILE) (nmetrics : GMetrics) : FILE :=
  if !conf.append_protocol then fp
  else
    let fp := fprintf fp "<td>".toList
    let fp := clean_output fp nmetrics.protocol
    fprintf fp "</td>".toList

def print_metric_method (conf : GConf) (fp : FILE) (nmetrics : GMetrics) : FILE :=
  if !conf.append_method then fp
  else
    let fp := fprintf fp "<td>".toList
    let fp := clean_output fp nmetrics.method
    fprintf fp "</td>".toList

def print_metrics (env : Env) (conf : GConf) (fp : FILE) (nmetrics : GMetrics)
    (max_hit max_vis : Int) (sub : Bool) (panel : GOutput) : FILE :=
  let fp := if panel.visitors then print_metric_visitors env fp nmetrics else fp
  let fp := if panel.hits then print_metric_hits env fp nmetrics else fp
  let fp := if panel.percent then
      print_metric_percent env fp nmetrics (decide (max_hit = nmetrics.hits)) else fp
  let fp := if panel.bw then print_metric_bw env fp nmetrics else fp
  let fp := if panel.avgts then print_metric_avgts env conf fp nmetrics else fp
  let fp := if panel.protocol then print_metric_protocol conf fp nmetrics else fp
  let fp := if panel.method then print_metric_method conf fp nmetrics else fp
  let fp := if panel.data then print_metric_data fp nmetrics else fp
  if panel.graph = true ∧ max_hit ≠ 0 ∧ panel.sub_graph = false ∧ sub = true then
    fprintf fp "<td></td>".toList
  else if panel.graph = true ∧ max_hit ≠ 0 then
    print_graph env fp max_hit max_vis nmetrics.hits nmetrics.visitors
  else fp

/-! ## Rows -/

/-- The loop of `print_html_sub_items` over the chain of children. -/
def print_html_sub_items_loop (env : Env) (conf : GConf) (processed max_hit max_vis : Int)
    (panel : GOutput) : List GSubItem → FILE → FILE
  | [], fp => fp
  | iter :: next, fp =>
    let nmetrics := env.set_data_metrics iter.metrics processed
    let fp := print_html_begin_tr fp true true
    let fp := print_metrics env conf fp nmetrics max_hit max_vis true panel
    let fp := print_html_end_tr fp
    print_html_sub_items_loop env conf processed max_hit max_vis panel next fp

def print_html_sub_items (env : Env) (conf : GConf) (fp : FILE) (h : GHolder) (idx : Nat)
    (processed max_hit max_vis : Int) (panel : GOutput) : FILE :=
  match (h.items idx).sub_list with
  | none => fp
  | some sub_list =>
    print_html_sub_items_loop env conf processed max_hit max_vis panel sub_list.head fp

/-- The loop of `print_html_data`: `n` iterations are left and `i` is the
loop index. -/
def print_html_data_loop (env : Env) (conf : GConf) (h : GHolder)
    (processed max_hit max_vis : Int) (panel : GOutput) : Nat → Nat → FILE → FILE
  | 0, _, fp => fp
  | n + 1, i, fp =>
    let nmetrics := env.set_data_metrics (h.items i).metrics processed
    let fp := print_html_begin_tr fp (decide (i > env.OUTPUT_N)) false
    let fp := print_metrics env conf fp nmetrics max_hit max_vis false panel
    let fp := print_html_end_tr fp
    let fp := if h.sub_items_size ≠ 0 then
        print_html_sub_items env conf fp h i processed max_hit max_vis panel else fp
    print_html_data_loop env conf h processed max_hit max_vis panel n (i + 1) fp

def print_html_data (env : Env) (conf : GConf) (fp : FILE) (h : GHolder)
    (processed max_hit max_vis : Int) (panel : GOutput) : FILE :=
  print_html_data_loop env conf h processed max_hit max_vis panel h.idx 0 fp

/-! ## The three render strategies -/

def print_html_visitors (env : Env) (conf : GConf) (fp : FILE) (h : GHolder) (processed : Int)
    (panel : GOutput) : FILE :=
  let fp := print_table_head env fp h.module
  let fp := print_html_begin_table fp
  let fp := print_html_begin_thead fp
  let fp := fprintf fp "<tr>".toList
  let fp := fprintf fp "<th>Visitors</th>".toList
  let fp := fprintf fp "<th>Hits</th>".toList
  let fp := fprintf fp "<th>%</th>".toList
  let fp := fprintf fp "<th>Bandwidth</th>".toList
  let fp := if conf.serve_usecs then fprintf fp "<th>Time&nbsp;served</th>".toList else fp
  let fp := fprintf fp "<th>Date</th>".toList
  let fp := fprintf fp
    "<th class='fr'>&nbsp;<span class='r icon-expand' onclick='t(this)'></span></th>".toList
  let fp := fprintf fp "</tr>".toList
  let fp := print_html_end_thead fp
  let fp := print_html_begin_tbody fp
  let max_hit := get_max_hit h
  let max_vis := get_max_visitor h
  let fp := print_html_data env conf fp h processed max_hit max_vis panel
  let fp := print_html_end_tbody fp
  print_html_end_table fp

def print_html_requests (env : Env) (conf : GConf) (fp : FILE) (h : GHolder) (processed : Int)
    (panel : GOutput) : FILE :=
  let fp := print_table_head env fp h.module
  let fp := print_html_begin_table fp
  let fp := print_html_begin_thead fp
  let fp := fprintf fp "<tr>".toList
  let fp := fprintf fp "<th>Visitors</th>".toList
  let fp := fprintf fp "<th>Hits</th>".toList
  let fp := fprintf fp "<th>%</th>".toList
  let fp := fprintf fp "<th>Bandwidth</th>".toList
  let fp := if conf.serve_usecs then fprintf fp "<th>Time&nbsp;served</th>".toList else fp
  let fp := if conf.append_protocol then fprintf fp "<th>Protocol</th>".toList else fp
  let fp := if conf.append_method then fprintf fp "<th>Method</th>".toList else fp
  let fp := fprintf fp "<th>".toList
  let fp := fprintf fp "Request <span class='r icon-expand' onclick='t(this)'></span>".toList
  let fp := fprintf fp "</th>".toList
  let fp := fprintf fp "</tr>".toList
  let fp := print_html_end_thead fp
  let fp := print_html_begin_tbody fp
  let fp := print_html_data env conf fp h processed 0 0 panel
  let fp := print_html_end_tbody fp
  print_html_end_table fp

def print_html_common (env : Env) (conf : GConf) (fp : FILE) (h : GHolder) (processed : Int)
    (panel : GOutput) : FILE :=
  let lbl := env.module_to_label h.module
  let max_hit : Int := if panel.graph then get_max_hit h else 0
  let max_vis : Int := if panel.graph then get_max_visitor h else 0
  let fp := print_table_head env fp h.module
  let fp := print_html_begin_table fp
  let fp := print_html_begin_thead fp
  let fp := fprintf fp "<tr>".toList
  let fp := fprintf fp "<th>Visitors</th>".toList
  let fp := fprintf fp "<th>Hits</th>".toList
  let fp := fprintf fp "<th>%</th>".toList
  let fp := fprintf fp "<th>Bandwidth</th>".toList
  let fp := if conf.serve_usecs then fprintf fp "<th>Time&nbsp;served</th>".toList else fp
  let fp := if max_hit ≠ 0 then fprintf fp ("<th>".toList ++ lbl ++ "</th>".toList) else fp
  let fp := fprintf fp ("<th class='".toList ++ (if max_hit ≠ 0 then "fr".toList else [])
    ++ "'>".toList ++ (if max_hit ≠ 0 then [] else lbl))
  let fp := fprintf fp "<span class='r icon-expand' onclick='t(this)'>&#8199;</span>".toList
  let fp := fprintf fp "</th>".toList
  let fp := fprintf fp "</tr>".toList
  let fp := print_html_end_thead fp
  let fp := print_html_begin_tbody fp
  let fp := print_html_data env conf fp h processed max_hit max_vis panel
  let fp := print_html_end_tbody fp
  print_html_end_table fp

/-- The call `panel->render (fp, h, processed, panel)` through the function
pointer of the registry row. -/
def GOutput.call_render (panel : GOutput) (env : Env) (conf : GConf) (fp : FILE) (h : GHolder)
    (processed : Int) : FILE :=
  match panel.render with
  | .print_html_visitors => print_html_visitors env conf fp h processed panel
  | .print_html_requests => print_html_requests env conf fp h processed panel
  | .print_html_common => print_html_common env conf fp h processed panel

/-! ## Reading the markup back

A scanner over the emitted characters that collects the tags of a document
(the text between each `<` and the next `>`); rows and cells are counted on
the emitted text itself. -/

/-- The tags met while reading `s`; the state is `none` outside a tag and
`some acc` inside one, `acc` being the text read since its `<`. -/
def scanTags : Option (List Char) → List Char → List (List Char)
  | _, [] => []
  | none, c :: cs => if c = '<' then scanTags (some []) cs else scanTags none cs
  | some acc, c :: cs =>
    if c = '>' then acc :: scanTags none cs else scanTags (some (acc ++ [c])) cs

/-- The state of the scanner after reading `s`. -/
def scanEnd : Option (List Char) → List Char → Option (List Char)
  | st, [] => st
  | none, c :: cs => if c = '<' then scanEnd (some []) cs else scanEnd none cs
  | some acc, c :: cs =>
    if c = '>' then scanEnd none cs else scanEnd (some (acc ++ [c])) cs

/-- The tags of a document. -/
def tags (s : List Char) : List (List Char) := scanTags none s

/-- The name of a tag: its text up to the first space. -/
def tagName (t : List Char) : List Char := t.takeWhile (fun c => c ≠ ' ')

/-- The number of cells (`<td ...>` tags) of a document. -/
def countCells (s : List Char) : Nat :=
  (tags s).countP (fun t => tagName t = "td".toList)

/-- The row openers (`<tr ...>` tags) of a document, in order. -/
def rowTags (s : List Char) : List (List Char) :=
  (tags s).filter (fun t => tagName t = "tr".toList)

/-- A text without angle brackets. -/
def NoAngle (s : List Char) : Prop := ∀ c ∈ s, c ≠ '<' ∧ c ≠ '>'

/-- The number conversions of the environment write no angle bracket. -/
def Env.NumbersPlain (env : Env) : Prop :=
  (∀ n, NoAngle (env.fmt_num n)) ∧ (∀ q, NoAngle (env.fmt_percent q))
    ∧ (∀ q, NoAngle (env.fmt_float q))

/-- A piece of markup that ends outside any tag, with its number of cells
and its row openers. -/
structure Piece (out : List Char) (cells : Nat) (rows : List (List Char)) : Prop where
  closed : scanEnd none out = none
  cells_eq : countCells out = cells
  rows_eq : rowTags out = rows

instance (s : List Char) : Decidable (NoAngle s) := by
  unfold NoAngle; infer_instance

/-- The six fixed entities of the escaping map. -/
def sixEntities : List (List Char) :=
  ["&#39;".toList, "&#34;".toList, "&amp;".toList, "&lt;".toList, "&gt;".toList,
    "&nbsp;".toList]

/-- A text without any raw angle bracket, apostrophe, double quote or
space. -/
def RawFree (s : List Char) : Prop :=
  ∀ c ∈ s, c ≠ '<' ∧ c ≠ '>' ∧ c ≠ Char.ofNat 39 ∧ c ≠ '"' ∧ c ≠ ' '

instance (s : List Char) : Decidable (RawFree s) := by
  unfold RawFree; infer_instance

/-- The children of the detail list of the entry `i` of a holder, in list
order; none when the entry owns no list. -/
def children (h : GHolder) (i : Nat) : List GSubItem :=
  match (h.items i).sub_list with
  | none => []
  | some sub_list => sub_list.head

/-! ## Sample data -/

/-- A sample environment: numbers are written in the C locale, the
percentages by their integer part. -/
def sampleEnv : Env where
  OUTPUT_N := 10
  fmt_num := fmt_d
  fmt_percent := fun q => fmt_d (int_of_float q)
  fmt_float := fun q => fmt_d (int_of_float q)
  filesize_str := fun n => fmt_d n ++ " B".toList
  usecs_to_str := fun n => fmt_d n ++ " us".toList
  module_to_head := fun _ => "Operating Systems".toList
  module_to_id := fun _ => some "os".toList
  module_to_desc := fun _ => "Top Operating Systems sorted by unique visitors".toList
  module_to_label := fun _ => "Operating System".toList
  set_data_metrics := fun m processed => { m with percent := get_percentage processed m.hits }

def sampleMetrics (data : String) (hits visitors : Int) : GMetrics where
  data := data.toList
  method := "GET".toList
  protocol := "HTTP/1.1".toList
  percent := 0
  hits := hits
  visitors := visitors
  bw_nbw := 2048
  avgts_nts := 350

/-- A sample holder of eleven ranked entries, with 20, 19, ..., 10 hits; the
first entry owns a detail list of two children. -/
def sampleHolder : GHolder where
  items := fun i =>
    { metrics := sampleMetrics "Linux <x86 64>" (20 - i) (11 - i)
      sub_list := if i = 0 then
          some ⟨[⟨sampleMetrics "Ubuntu" 12 7⟩, ⟨sampleMetrics "Debian" 8 4⟩]⟩
        else none }
  idx := 11
  module := .OS
  sub_items_size := 2

def sampleConf : GConf where
  serve_usecs := true
  append_protocol := true
  append_method := true
  ifile := some "access.log".toList

/-- The registry row of the operating systems panel. -/
def samplePanel : GOutput :=
  ⟨.OS, .print_html_common, true, true, true, true, true, false, false, true, true, true⟩

/-- A holder without entries. -/
def emptyHolder : GHolder where
  items := sampleHolder.items
  idx := 0
  module := .OS
  sub_items_size := 0

/-! ## The registry lookup -/

/-- The loop of `panel_lookup` over the rows of the registry, from the
first row on: the first row of the module, or NULL. -/
def panel_lookup_loop (module : GModule) : List GOutput → Option GOutput
  | [] => none
  | row :: rest => if row.module = module then some row else panel_lookup_loop module rest

def panel_lookup (geoip : Bool) (module : GModule) : Option GOutput :=
  panel_lookup_loop module (paneling geoip)

/-- The enumerators of `GModule` of a build, in enumeration order: the
module ids `0, ..., TOTAL_MODULES - 1`. -/
def modules (geoip : Bool) : List GModule :=
  [.VISITORS, .REQUESTS, .REQUESTS_STATIC, .NOT_FOUND, .HOSTS, .OS, .BROWSERS, .REFERRERS,
    .REFERRING_SITES, .KEYPHRASES]
  ++ (if geoip then [.GEO_LOCATION] else []) ++ [.STATUS_CODES]

/-! ## Strings that may be NULL -/

/-- The routine `clean_output` on a pointer that may be NULL: the loop
starts by reading `*s`, which faults (`none`) on a NULL pointer. -/
def clean_output_ptr (fp : FILE) (s : Option (List Char)) : Option FILE :=
  match s with
  | none => none
  | some s => some (clean_output fp s)

/-- The routine `print_metric_data` for a label pointer that may be NULL. -/
def print_metric_data_ptr (fp : FILE) (data : Option (List Char)) : Option FILE :=
  let fp := fprintf fp "<td>".toList
  match clean_output_ptr fp data with
  | none => none
  | some fp => some (fprintf fp "</td>".toList)

/-! ## The summary block and the document -/

/-- The logger (`GLog`): the fields read by `output.c`. -/
structure GLog where
  process : Int
  invalid : Int
  exclude_ip : Int
  piping : Bool
  resp_size : Nat

/-- The metric kinds (`GMetric`) the summary asks the storage for. -/
inductive GMetric where
  | MTRC_DATAMAP
  | MTRC_UNIQMAP
  deriving DecidableEq, Repr

/-- The texts of the user interface, macros defined outside `output.c`. -/
structure Ui where
  GO_WEBSITE : List Char
  GO_LOGO : List Char
  GO_VERSION : List Char
  GENER_ID : List Char
  VISIT_ID : List Char
  REQUE_ID : List Char
  STATI_ID : List Char
  FOUND_ID : List Char
  HOSTS_ID : List Char
  OPERA_ID : List Char
  BROWS_ID : List Char
  REFER_ID : List Char
  SITES_ID : List Char
  KEYPH_ID : List Char
  GEOLO_ID : List Char
  CODES_ID : List Char
  T_HEAD : List Char
  T_REQUESTS : List Char
  T_FAILED : List Char
  T_GEN_TIME : List Char
  T_UNIQUE_VIS : List Char
  T_UNIQUE_FIL : List Char
  T_EXCLUDE_IP : List Char
  T_REFERRER : List Char
  T_UNIQUE404 : List Char
  T_STATIC_FIL : List Char
  T_LOG : List Char
  T_BW : List Char
  T_LOG_PATH : List Char

/-- What the summary reads outside `output.c`: the storage sizes, the size
of the log file, the two time stamps of the run, and the value a count has
once cast to `float`. -/
structure Store where
  get_ht_size_by_metric : GModule → GMetric → Int
  file_size : Option (List Char) → Int
  start_proc : Int
  end_proc : Int
  to_float : Nat → Nat

/-- The payload of the document header: the script and the style sheet
(with the icon font in it) that `print_html_header` writes. -/
structure Assets where
  script : List Char
  style : List Char

def print_html_header (assets : Assets) (fp : FILE) (now : List Char) : FILE :=
  let fp := fprintf fp "<!DOCTYPE html>\n".toList
  let fp := fprintf fp "<html lang=\"en\"><head>\n".toList
  let fp := fprintf fp ("<title>Server Statistics - ".toList ++ now ++ "</title>\n".toList)
  let fp := fprintf fp "<meta charset=\"UTF-8\" />".toList
  let fp := fprintf fp "<meta name=\"robots\" content=\"noindex, nofollow\" />".toList
  let fp := fprintf fp "<script type=\"text/javascript\">\n".toList
  let fp := fprintf fp assets.script
  let fp := fprintf fp "</script>\n".toList
  let fp := fprintf fp "<style type=\"text/css\">".toList
  let fp := fprintf fp assets.style
  let fp := fprintf fp "</style>\n".toList
  let fp := fprintf fp "</head>\n".toList
  let fp := fprintf fp "<body>\n".toList
  fprintf fp "<div class=\"pure-g-r\" id=\"layout\">".toList

def print_pure_menu (ui : Ui) (geoip : Bool) (fp : FILE) (now : List Char) : FILE :=
  let fp := fprintf fp "<div id=\"menu\" class=\"pure-u\">".toList
  let fp := fprintf fp "<div class=\"pure-menu pure-menu-open\">".toList
  let fp := fprintf fp ("<a class=\"pure-menu-heading\" href=\"".toList ++ ui.GO_WEBSITE
    ++ "\">".toList)
  let fp := fprintf fp ("<img src='data:image/png;base64,".toList ++ ui.GO_LOGO
    ++ "'/>".toList)
  let fp := fprintf fp "</a>".toList
  let fp := fprintf fp "<ul>".toList
  let fp := fprintf fp "<li><a href=\"#\">Overall</a></li>".toList
  let fp := fprintf fp ("<li><a href=\"#".toList ++ ui.VISIT_ID
    ++ "\">Unique visitors</a></li>".toList)
  let fp := fprintf fp ("<li><a href=\"#".toList ++ ui.REQUE_ID
    ++ "\">Requested files</a></li>".toList)
  let fp := fprintf fp ("<li><a href=\"#".toList ++ ui.STATI_ID
    ++ "\">Requested static files</a></li>".toList)
  let fp := fprintf fp ("<li><a href=\"#".toList ++ ui.FOUND_ID
    ++ "\">Not found URLs</a></li>".toList)
  let fp := fprintf fp ("<li><a href=\"#".toList ++ ui.HOSTS_ID ++ "\">Hosts</a></li>".toList)
  let fp := fprintf fp ("<li><a href=\"#".toList ++ ui.OPERA_ID
    ++ "\">Operating Systems</a></li>".toList)
  let fp := fprintf fp ("<li><a href=\"#".toList ++ ui.BROWS_ID
    ++ "\">Browsers</a></li>".toList)
  let fp := fprintf fp ("<li><a href=\"#".toList ++ ui.REFER_ID
    ++ "\">Referrers URLs</a></li>".toList)
  let fp := fprintf fp ("<li><a href=\"#".toList ++ ui.SITES_ID
    ++ "\">Referring sites</a></li>".toList)
  let fp := fprintf fp ("<li><a href=\"#".toList ++ ui.KEYPH_ID
    ++ "\">Keyphrases</a></li>".toList)
  let fp := if geoip then
      fprintf fp ("<li><a href=\"#".toList ++ ui.GEOLO_ID ++ "\">Geo Location</a></li>".toList)
    else fp
  let fp := fprintf fp ("<li><a href=\"#".toList ++ ui.CODES_ID
    ++ "\">Status codes</a></li>".toList)
  let fp := fprintf fp "<li class=\"menu-item-divided\"></li>".toList
  let fp := fprintf fp "</ul>".toList
  let fp := fprintf fp ("<p>Generated by<br />GoAccess ".toList ++ ui.GO_VERSION
    ++ "<br />—<br />".toList ++ now ++ "</p>".toList)
  let fp := fprintf fp "</div>".toList
  let fp := fprintf fp "</div> <!-- menu -->".toList
  let fp := fprintf fp "<div id=\"main\" class=\"pure-u-1\">".toList
  fprintf fp "<div class=\"l-box\">".toList

def print_html_footer (fp : FILE) : FILE :=
  let fp := fprintf fp "</div> <!-- l-box -->\n".toList
  let fp := fprintf fp "</div> <!-- main -->\n".toList
  let fp := fprintf fp "</div> <!-- layout -->\n".toList
  let fp := fprintf fp "</body>\n".toList
  fprintf fp "</html>".toList

def print_html_end_div (fp : FILE) : FILE :=
  fprintf fp "</div>".toList

def print_html_begin_grid (fp : FILE) : FILE :=
  fprintf fp "<div class='grid grid-pad'>".toList

def print_html_begin_grid_col (fp : FILE) (size : Int) : FILE :=
  fprintf fp ("<div class='col-1-".toList ++ fmt_d size ++ "'>".toList)

def print_html_begin_grid_module (fp : FILE) : FILE :=
  fprintf fp "<div class='grid-module'>".toList

def print_html_begin_col_wrap (fp : FILE) (size : Int) : FILE :=
  let fp := print_html_begin_grid_col fp size
  print_html_begin_grid_module fp

def print_html_end_col_wrap (fp : FILE) : FILE :=
  let fp := print_html_end_div fp
  print_html_end_div fp

def print_html_col_title (fp : FILE) (title : List Char) : FILE :=
  fprintf fp ("<div class='col-title trunc'>".toList ++ title ++ "</div>".toList)

/-- The routine `print_html_summary`; it returns the stream and the
configuration, whose `ifile` it sets to `"STDIN"` when it is NULL.  The
conversion `%llu` writes the elapsed time as an unsigned 64-bit number and
`filesize_str` takes the size of the log as one. -/
def print_html_summary (env : Env) (store : Store) (ui : Ui) (conf : GConf) (fp : FILE)
    (logger : GLog) : FILE × GConf :=
  let fp := print_html_h2 fp ui.T_HEAD (some ui.GENER_ID)
  let fp := print_html_begin_grid fp
  -- total requests
  let total := logger.process
  let fp := print_html_begin_col_wrap fp 6
  let fp := print_html_col_title fp ui.T_REQUESTS
  let fp := fprintf fp ("<h3 class='label green'>".toList ++ env.fmt_num total
    ++ "</h3>".toList)
  let fp := print_html_end_col_wrap fp
  -- invalid requests
  let total := logger.invalid
  let fp := print_html_begin_col_wrap fp 6
  let fp := print_html_col_title fp ui.T_FAILED
  let fp := fprintf fp ("<h3 class='label red'>".toList ++ env.fmt_num total
    ++ "</h3>".toList)
  let fp := print_html_end_col_wrap fp
  -- generated time
  let time := store.end_proc - store.start_proc
  let fp := print_html_begin_col_wrap fp 6
  let fp := print_html_col_title fp ui.T_GEN_TIME
  let fp := fprintf fp ("<h3 class='label'>".toList ++ fmt_d (time % 2 ^ 64)
    ++ " secs</h3>".toList)
  let fp := print_html_end_col_wrap fp
  let total := store.get_ht_size_by_metric .VISITORS .MTRC_UNIQMAP
  let fp := print_html_begin_col_wrap fp 6
  let fp := print_html_col_title fp ui.T_UNIQUE_VIS
  let fp := fprintf fp ("<h3 class='label'>".toList ++ env.fmt_num total ++ "</h3>".toList)
  let fp := print_html_end_col_wrap fp
  -- files
  let total := store.get_ht_size_by_metric .REQUESTS .MTRC_DATAMAP
  let fp := print_html_begin_col_wrap fp 6
  let fp := print_html_col_title fp ui.T_UNIQUE_FIL
  let fp := fprintf fp ("<h3 class='label'>".toList ++ env.fmt_num total ++ "</h3>".toList)
  let fp := print_html_end_col_wrap fp
  -- excluded hits
  let total := logger.exclude_ip
  let fp := print_html_begin_col_wrap fp 6
  let fp := print_html_col_title fp ui.T_EXCLUDE_IP
  let fp := fprintf fp ("<h3 class='label'>".toList ++ env.fmt_num total ++ "</h3>".toList)
  let fp := print_html_end_col_wrap fp
  let fp := print_html_end_div fp
  let fp := print_html_begin_grid fp
  -- referrers
  let total := store.get_ht_size_by_metric .REFERRERS .MTRC_DATAMAP
  let fp := print_html_begin_col_wrap fp 6
  let fp := print_html_col_title fp ui.T_REFERRER
  let fp := fprintf fp ("<h3 class='label'>".toList ++ env.fmt_num total ++ "</h3>".toList)
  let fp := print_html_end_col_wrap fp
  -- not found
  let total := store.get_ht_size_by_metric .NOT_FOUND .MTRC_DATAMAP
  let fp := print_html_begin_col_wrap fp 6
  let fp := print_html_col_title fp ui.T_UNIQUE404
  let fp := fprintf fp ("<h3 class='label'>".toList ++ env.fmt_num total ++ "</h3>".toList)
  let fp := print_html_end_col_wrap fp
  -- static files
  let total := store.get_ht_size_by_metric .REQUESTS_STATIC .MTRC_DATAMAP
  let fp := print_html_begin_col_wrap fp 6
  let fp := print_html_col_title fp ui.T_STATIC_FIL
  let fp := fprintf fp ("<h3 class='label'>".toList ++ env.fmt_num total ++ "</h3>".toList)
  let fp := print_html_end_col_wrap fp
  let size : List Char :=
    if !logger.piping then
      let log_size := store.file_size conf.ifile
      env.filesize_str (log_size % 2 ^ 64).toNat
    else "N/A".toList
  -- log size
  let fp := print_html_begin_col_wrap fp 6
  let fp := print_html_col_title fp ui.T_LOG
  let fp := fprintf fp ("<h3 class='label'>".toList ++ size ++ "</h3>".toList)
  let fp := print_html_end_col_wrap fp
  -- bandwidth
  let bw := env.filesize_str (store.to_float logger.resp_size)
  let fp := print_html_begin_col_wrap fp 6
  let fp := print_html_col_title fp ui.T_BW
  let fp := fprintf fp ("<h3 class='label'>".toList ++ bw ++ "</h3>".toList)
  let fp := print_html_end_col_wrap fp
  -- log path
  let conf := if conf.ifile = none then { conf with ifile := some "STDIN".toList } else conf
  let fp := print_html_begin_col_wrap fp 6
  let fp := print_html_col_title fp ui.T_LOG_PATH
  let fp := fprintf fp ("<h3 class='trunc' style='color:#242424'>".toList
    ++ conf.ifile.getD [] ++ "</h3>".toList)
  let fp := print_html_end_col_wrap fp
  let fp := print_html_end_div fp
  (fp, conf)

/-- The loop of `output_html` over the module ids still to come; a module
without a registered panel is passed over (`continue`). -/
def output_html_loop (env : Env) (conf : GConf) (geoip : Bool) (logger : GLog)
    (holder : GModule → GHolder) : List GModule → FILE → FILE
  | [], fp => fp
  | module :: rest, fp =>
    match panel_lookup geoip module with
    | none => output_html_loop env conf geoip logger holder rest fp
    | some panel =>
      output_html_loop env conf geoip logger holder rest
        (panel.call_render env conf fp (holder module) logger.process)

/-- The entry point `output_html`: `stdout` is what the standard output
holds so far, `now` the formatted time of the report, `holder` the array of
holders indexed by the module. -/
def output_html (env : Env) (store : Store) (ui : Ui) (assets : Assets) (conf : GConf)
    (geoip : Bool) (stdout : FILE) (now : List Char) (logger : GLog)
    (holder : GModule → GHolder) : FILE :=
  let fp := stdout
  let fp := print_html_header assets fp now
  let fp := print_pure_menu ui geoip fp now
  let r := print_html_summary env store ui conf fp logger
  let fp := r.1
  let conf := r.2
  let fp := output_html_loop env conf geoip logger holder (modules geoip) fp
  print_html_footer fp

/-! ## The header rows -/

/-- The header row `print_html_visitors` writes between `<thead>` and
`</thead>`. -/
def visitors_head_row (conf : GConf) : List Char :=
  "<tr>".toList ++ "<th>Visitors</th>".toList ++ "<th>Hits</th>".toList ++ "<th>%</th>".toList
  ++ "<th>Bandwidth</th>".toList
  ++ (if conf.serve_usecs then "<th>Time&nbsp;served</th>".toList else [])
  ++ "<th>Date</th>".toList
  ++ "<th class='fr'>&nbsp;<span class='r icon-expand' onclick='t(this)'></span></th>".toList
  ++ "</tr>".toList

/-- The header row `print_html_requests` writes between `<thead>` and
`</thead>`. -/
def requests_head_row (conf : GConf) : List Char :=
  "<tr>".toList ++ "<th>Visitors</th>".toList ++ "<th>Hits</th>".toList ++ "<th>%</th>".toList
  ++ "<th>Bandwidth</th>".toList
  ++ (if conf.serve_usecs then "<th>Time&nbsp;served</th>".toList else [])
  ++ (if conf.append_protocol then "<th>Protocol</th>".toList else [])
  ++ (if conf.append_method then "<th>Method</th>".toList else [])
  ++ "<th>".toList ++ "Request <span class='r icon-expand' onclick='t(this)'></span>".toList
  ++ "</th>".toList ++ "</tr>".toList

/-- The header row `print_html_common` writes between `<thead>` and
`</thead>`, for the label `lbl` of the module and the module maximum
`max_hit` it computed. -/
def common_head_row (conf : GConf) (lbl : List Char) (max_hit : Int) : List Char :=
  "<tr>".toList ++ "<th>Visitors</th>".toList ++ "<th>Hits</th>".toList ++ "<th>%</th>".toList
  ++ "<th>Bandwidth</th>".toList
  ++ (if conf.serve_usecs then "<th>Time&nbsp;served</th>".toList else [])
  ++ (if max_hit ≠ 0 then "<th>".toList ++ lbl ++ "</th>".toList else [])
  ++ ("<th class='".toList ++ (if max_hit ≠ 0 then "fr".toList else []) ++ "'>".toList
    ++ (if max_hit ≠ 0 then [] else lbl))
  ++ "<span class='r icon-expand' onclick='t(this)'>&#8199;</span>".toList
  ++ "</th>".toList ++ "</tr>".toList

/-- The number of header columns (`<th ...>` tags) of a document. -/
def countHeads (s : List Char) : Nat :=
  (tags s).countP (fun t => tagName t = "th".toList)

/-- A piece of markup that ends outside any tag, with its number of header
columns. -/
structure HeadPiece (out : List Char) (heads : Nat) : Prop where
  closed : scanEnd none out = none
  heads_eq : countHeads out = heads

/-- The header row the strategy of a panel writes for a holder. -/
def head_row (env : Env) (conf : GConf) (panel : GOutput) (h : GHolder) : List Char :=
  match panel.render with
  | .print_html_visitors => visitors_head_row conf
  | .print_html_requests => requests_head_row conf
  | .print_html_common =>
    common_head_row conf (env.module_to_label h.module) (if panel.graph then get_max_hit h else 0)

/-- The module maxima `max_hit` and `max_vis` the strategy of a panel hands
to `print_html_data` for a holder. -/
def row_maxima (panel : GOutput) (h : GHolder) : Int × Int :=
  match panel.render with
  | .print_html_visitors => (get_max_hit h, get_max_visitor h)
  | .print_html_requests => (0, 0)
  | .print_html_common =>
    (if panel.graph then get_max_hit h else 0, if panel.graph then get_max_visitor h else 0)

/-! ## More sample data -/

def sampleLog : GLog where
  process := 1000
  invalid := 5
  exclude_ip := 2
  piping := false
  resp_size := 123456

def sampleUi : Ui where
  GO_WEBSITE := "http://goaccess.prosoftcorp.com/".toList
  GO_LOGO := "iVBORw0KGgo=".toList
  GO_VERSION := "0.8".toList
  GENER_ID := "general".toList
  VISIT_ID := "visitors".toList
  REQUE_ID := "requests".toList
  STATI_ID := "static".toList
  FOUND_ID := "notfound".toList
  HOSTS_ID := "hosts".toList
  OPERA_ID := "os".toList
  BROWS_ID := "browsers".toList
  REFER_ID := "referrers".toList
  SITES_ID := "sites".toList
  KEYPH_ID := "keyphrases".toList
  GEOLO_ID := "geo".toList
  CODES_ID := "status".toList
  T_HEAD := "General Statistics".toList
  T_REQUESTS := "Total Requests".toList
  T_FAILED := "Failed Requests".toList
  T_GEN_TIME := "Generation Time".toList
  T_UNIQUE_VIS := "Unique Visitors".toList
  T_UNIQUE_FIL := "Unique Files".toList
  T_EXCLUDE_IP := "Excluded IP Hits".toList
  T_REFERRER := "Referrers".toList
  T_UNIQUE404 := "Unique 404".toList
  T_STATIC_FIL := "Static Files".toList
  T_LOG := "Log Size".toList
  T_BW := "Bandwidth".toList
  T_LOG_PATH := "Log File".toList

def sampleStore : Store where
  get_ht_size_by_metric := fun _ _ => 7
  file_size := fun path => match path with
    | none => -1
    | some _ => 4096
  start_proc := 100
  end_proc := 103
  to_float := fun n => n

/-- A configuration whose input path is NULL. -/
def stdinConf : GConf where
  serve_usecs := false
  append_protocol := false
  append_method := false
  ifile := none

/-- A holder whose only root entry has 5 hits and owns a child of 10 hits. -/
def lopsidedHolder : GHolder where
  items := fun _ =>
    { metrics := sampleMetrics "Linux" 5 1
      sub_list := some ⟨[⟨sampleMetrics "Ubuntu" 10 1⟩]⟩ }
  idx := 1
  module := .OS
  sub_items_size := 1

/-- One counter of the summary block as `print_html_summary` writes it: the
column wrapper of width 6, the title, the `h3` element `value`, the end of
the wrapper. -/
def summary_counter (title value : List Char) : List Char :=
  print_html_end_col_wrap (fprintf (print_html_col_title (print_html_begin_col_wrap [] 6) title)
    value)

/-! ## Sample data for the visitors and requests panels -/

/-- The registry row of the visitors panel. -/
def visitorsPanel : GOutput :=
  ⟨.VISITORS, .print_html_visitors, true, true, true, true, true, false, false, true, true, false⟩

/-- The registry row of the requests panel. -/
def requestsPanel : GOutput :=
  ⟨.REQUESTS, .print_html_requests, true, true, true, true, true, true, true, true, false, false⟩

/-- A holder of one root entry that has no hit and no visitor. -/
def zeroHolder : GHolder where
  items := fun _ => { metrics := sampleMetrics "31/Oct/2014" 0 0, sub_list := none }
  idx := 1
  module := .VISITORS
  sub_items_size := 0

/-! ## Theorems -/

theorem clean_output_eq (fp : FILE) (s : List Char) :
    clean_output fp s = fp ++ escapeForMarkup s := by
  induction s generalizing fp with
  | nil => simp [clean_output, escapeForMarkup]
  | cons c s ih =>
    rw [clean_output, ih]
    simp only [escapeForMarkup, List.flatMap_cons, entity, fprintf, fputc]
    split_ifs <;> simp

/-! ### The scanner -/

theorem scanTags_append (st : Option (List Char)) (a b : List Char) :
    scanTags st (a ++ b) = scanTags st a ++ scanTags (scanEnd st a) b := by
  induction a generalizing st with
  | nil => cases st <;> simp [scanTags, scanEnd]
  | cons c a ih =>
    cases st with
    | none =>
      simp only [List.cons_append, scanTags, scanEnd]
      split_ifs <;> exact ih _
    | some acc =>
      simp only [List.cons_append, scanTags, scanEnd]
      split_ifs
      · simp [ih]
      · exact ih _

theorem scanEnd_append (st : Option (List Char)) (a b : List Char) :
    scanEnd st (a ++ b) = scanEnd (scanEnd st a) b := by
  induction a generalizing st with
  | nil => cases st <;> simp [scanEnd]
  | cons c a ih =>
    cases st with
    | none =>
      simp only [List.cons_append, scanEnd]
      split_ifs <;> exact ih _
    | some acc =>
      simp only [List.cons_append, scanEnd]
      split_ifs <;> exact ih _

theorem scan_text_none (s : List Char) (h : ∀ c ∈ s, c ≠ '<') :
    scanTags none s = [] ∧ scanEnd none s = none := by
  induction s with
  | nil => simp [scanTags, scanEnd]
  | cons c s ih =>
    have hc : c ≠ '<' := h c (List.mem_cons_self _ _)
    have hs := ih (fun d hd => h d (List.mem_cons_of_mem _ hd))
    simp [scanTags, scanEnd, hc, hs]

theorem scan_text_some (acc s : List Char) (h : ∀ c ∈ s, c ≠ '>') :
    scanTags (some acc) s = [] ∧ scanEnd (some acc) s = some (acc ++ s) := by
  induction s generalizing acc with
  | nil => simp [scanTags, scanEnd]
  | cons c s ih =>
    have hc : c ≠ '>' := h c (List.mem_cons_self _ _)
    have hs := ih (acc ++ [c]) (fun d hd => h d (List.mem_cons_of_mem _ hd))
    simp [scanTags, scanEnd, hc, hs]

theorem tags_append {a : List Char} (ha : scanEnd none a = none) (b : List Char) :
    tags (a ++ b) = tags a ++ tags b := by
  simp [tags, scanTags_append, ha]

theorem tags_tag (body : List Char) (h : ∀ c ∈ body, c ≠ '>') :
    tags ('<' :: (body ++ ['>'])) = [body] ∧ scanEnd none ('<' :: (body ++ ['>'])) = none := by
  have h1 := scan_text_some [] body h
  simp [tags, scanTags, scanEnd, scanTags_append, scanEnd_append, h1]

theorem Piece.nil : Piece [] 0 [] := ⟨rfl, rfl, rfl⟩

theorem Piece.append {a b : List Char} {n m : Nat} {r s : List (List Char)}
    (ha : Piece a n r) (hb : Piece b m s) : Piece (a ++ b) (n + m) (r ++ s) := by
  refine ⟨?_, ?_, ?_⟩
  · rw [scanEnd_append, ha.closed, hb.closed]
  · have := ha.cells_eq; have := hb.cells_eq
    simp_all [countCells, tags_append ha.closed]
  · have := ha.rows_eq; have := hb.rows_eq
    simp_all [rowTags, tags_append ha.closed]

theorem Piece.text {s : List Char} (h : ∀ c ∈ s, c ≠ '<') : Piece s 0 [] := by
  have := scan_text_none s h
  exact ⟨this.2, by simp [countCells, tags, this.1], by simp [rowTags, tags, this.1]⟩

theorem Piece.tag {body : List Char} (h : ∀ c ∈ body, c ≠ '>') :
    Piece ('<' :: (body ++ ['>'])) (if tagName body = "td".toList then 1 else 0)
      (if tagName body = "tr".toList then [body] else []) := by
  have := tags_tag body h
  refine ⟨this.2, ?_, ?_⟩
  · simp only [countCells, this.1]
    split_ifs with h1 <;> simp_all
  · simp only [rowTags, this.1]
    split_ifs with h1 <;> simp_all

/-! ### Decimal digits -/

theorem ite_mem {p : Prop} [Decidable p] {a b : Char} {S : List Char} (ha : a ∈ S)
    (hb : b ∈ S) : (if p then a else b) ∈ S := by
  split <;> assumption

theorem digitChar_mem (d : Nat) : Nat.digitChar d ∈ "0123456789abcdef*".toList := by
  unfold Nat.digitChar
  repeat refine ite_mem (by decide) ?_
  decide

theorem digitChar_plain (d : Nat) : Nat.digitChar d ≠ '<' ∧ Nat.digitChar d ≠ '>' := by
  have h : ∀ c ∈ "0123456789abcdef*".toList, c ≠ '<' ∧ c ≠ '>' := by decide
  exact h _ (digitChar_mem d)

theorem toDigitsCore_plain (b fuel n : Nat) (ds : List Char) (h : NoAngle ds) :
    NoAngle (Nat.toDigitsCore b fuel n ds) := by
  induction fuel generalizing n ds with
  | zero => simpa [Nat.toDigitsCore] using h
  | succ fuel ih =>
    have hd : NoAngle (Nat.digitChar (n % b) :: ds) := by
      intro c hc
      rcases List.mem_cons.1 hc with rfl | hc
      · exact digitChar_plain _
      · exact h c hc
    simp only [Nat.toDigitsCore]
    split_ifs
    · exact hd
    · exact ih _ _ hd

theorem repr_plain (n : Nat) : NoAngle (Nat.repr n).toList := by
  simp only [Nat.repr, Nat.toDigits, List.asString, String.toList]
  exact toDigitsCore_plain _ _ _ _ (by simp [NoAngle])

theorem fmt_d_plain (n : Int) : NoAngle (fmt_d n) := by
  unfold fmt_d
  cases n with
  | ofNat m => exact repr_plain m
  | negSucc m =>
    show NoAngle ("-" ++ Nat.repr (m + 1)).toList
    intro c hc
    simp only [String.toList, String.data_append, List.mem_append] at hc
    rcases hc with hc | hc
    · simp at hc; subst hc; decide
    · exact repr_plain _ c hc

/-! ### The escaped text -/

theorem entity_rawFree (c : Char) : RawFree (entity c) := by
  unfold entity
  split_ifs with h1 h2 h3 h4 h5 h6
  · decide
  · decide
  · decide
  · decide
  · decide
  · decide
  · intro d hd
    simp only [List.mem_singleton] at hd
    subst hd
    exact ⟨h4, h5, h1, h2, h6⟩

theorem escapeForMarkup_rawFree (s : List Char) : RawFree (escapeForMarkup s) := by
  intro d hd
  simp only [escapeForMarkup, List.mem_flatMap] at hd
  obtain ⟨c, _, hc⟩ := hd
  exact entity_rawFree c d hc

theorem amp_head_only {t a r : List Char} (ht : '&' ∉ t) (h : '&' :: t = a ++ '&' :: r) :
    a = [] := by
  cases a with
  | nil => rfl
  | cons x a =>
    simp only [List.cons_append, List.cons.injEq] at h
    exact absurd (by rw [h.2]; simp) ht

theorem entity_amp (c : Char) {a r : List Char} (h : entity c = a ++ '&' :: r) :
    a = [] ∧ entity c ∈ sixEntities := by
  unfold entity at h ⊢
  split_ifs at h ⊢ with h1 h2 h3 h4 h5 h6
  · exact ⟨amp_head_only (by decide) h, by decide⟩
  · exact ⟨amp_head_only (by decide) h, by decide⟩
  · exact ⟨amp_head_only (by decide) h, by decide⟩
  · exact ⟨amp_head_only (by decide) h, by decide⟩
  · exact ⟨amp_head_only (by decide) h, by decide⟩
  · exact ⟨amp_head_only (by decide) h, by decide⟩
  · exfalso
    cases a with
    | nil => simp at h; exact h3 h.1
    | cons x a => simp at h

theorem escapeForMarkup_amp (s : List Char) {a r : List Char}
    (h : escapeForMarkup s = a ++ '&' :: r) : ∃ e ∈ sixEntities, e <+: '&' :: r := by
  induction s generalizing a with
  | nil => simp [escapeForMarkup] at h
  | cons c s ih =>
    have hc : escapeForMarkup (c :: s) = entity c ++ escapeForMarkup s := by
      simp [escapeForMarkup]
    rw [hc] at h
    rcases List.append_eq_append_iff.1 h with ⟨a', _, h2⟩ | ⟨c', h1, h2⟩
    · exact ih h2
    · cases c' with
      | nil => exact ih (a := []) (by simpa using h2.symm)
      | cons x c' =>
        simp only [List.cons_append, List.cons.injEq] at h2
        obtain ⟨rfl, h3⟩ := h2
        obtain ⟨rfl, hmem⟩ := entity_amp c h1
        refine ⟨entity c, hmem, ?_⟩
        rw [h1]
        simp [h3]

/-! ### What each cell writes -/

theorem NoAngle.join {a b : List Char} (ha : NoAngle a) (hb : NoAngle b) :
    NoAngle (a ++ b) := by
  intro c hc
  rcases List.mem_append.1 hc with h | h
  · exact ha c h
  · exact hb c h

theorem NoAngle.no_lt {s : List Char} (h : NoAngle s) : ∀ c ∈ s, c ≠ '<' :=
  fun c hc => (h c hc).1

theorem NoAngle.no_gt {s : List Char} (h : NoAngle s) : ∀ c ∈ s, c ≠ '>' :=
  fun c hc => (h c hc).2

theorem escapeForMarkup_noAngle (s : List Char) : NoAngle (escapeForMarkup s) :=
  fun c hc => ⟨(escapeForMarkup_rawFree s c hc).1, (escapeForMarkup_rawFree s c hc).2.1⟩

theorem ite_append_self {p : Prop} [Decidable p] (fp x : List Char) :
    (if p then fp ++ x else fp) = fp ++ (if p then x else []) := by
  split <;> simp

theorem print_metric_visitors_eq (env : Env) (fp : FILE) (m : GMetrics) :
    print_metric_visitors env fp m
      = fp ++ ("<td class='num'>".toList ++ env.fmt_num m.visitors ++ "</td>".toList) := by
  simp [print_metric_visitors, fprintf]

theorem print_metric_hits_eq (env : Env) (fp : FILE) (m : GMetrics) :
    print_metric_hits env fp m
      = fp ++ ("<td class='num'>".toList ++ env.fmt_num m.hits ++ "</td>".toList) := by
  simp [print_metric_hits, fprintf]

theorem print_metric_percent_eq (env : Env) (fp : FILE) (m : GMetrics) (b : Bool) :
    print_metric_percent env fp m b
      = fp ++ ("<td class='num'>".toList ++ ("<span class='".toList
          ++ (if b then "max".toList else []) ++ "'>".toList ++ env.fmt_percent m.percent
          ++ "%</span>".toList) ++ "</td>".toList) := by
  simp [print_metric_percent, fprintf]

theorem print_metric_bw_eq (env : Env) (fp : FILE) (m : GMetrics) :
    print_metric_bw env fp m
      = fp ++ ("<td class='num'>".toList ++ escapeForMarkup (env.filesize_str m.bw_nbw)
          ++ "</td>".toList) := by
  simp [print_metric_bw, fprintf, clean_output_eq]

theorem print_metric_avgts_eq (env : Env) (conf : GConf) (fp : FILE) (m : GMetrics) :
    print_metric_avgts env conf fp m
      = fp ++ (if conf.serve_usecs then "<td class='num'>".toList
          ++ escapeForMarkup (env.usecs_to_str m.avgts_nts) ++ "</td>".toList else []) := by
  cases h : conf.serve_usecs <;> simp [print_metric_avgts, fprintf, clean_output_eq, h]

theorem print_metric_data_eq (fp : FILE) (m : GMetrics) :
    print_metric_data fp m
      = fp ++ ("<td>".toList ++ escapeForMarkup m.data ++ "</td>".toList) := by
  simp [print_metric_data, fprintf, clean_output_eq]

theorem print_metric_protocol_eq (conf : GConf) (fp : FILE) (m : GMetrics) :
    print_metric_protocol conf fp m
      = fp ++ (if conf.append_protocol then "<td>".toList ++ escapeForMarkup m.protocol
          ++ "</td>".toList else []) := by
  cases h : conf.append_protocol <;> simp [print_metric_protocol, fprintf, clean_output_eq, h]

theorem print_metric_method_eq (conf : GConf) (fp : FILE) (m : GMetrics) :
    print_metric_method conf fp m
      = fp ++ (if conf.append_method then "<td>".toList ++ escapeForMarkup m.method
          ++ "</td>".toList else []) := by
  cases h : conf.append_method <;> simp [print_metric_method, fprintf, clean_output_eq, h]

theorem print_graph_eq (env : Env) (fp : FILE) (max_hit max_vis hits visitors : Int) :
    print_graph env fp max_hit max_vis hits visitors
      = fp ++ print_graph env [] max_hit max_vis hits visitors := by
  simp only [print_graph, fprintf]
  split <;> simp

theorem graph_step_eq (env : Env) (fp : FILE) (m : GMetrics) (max_hit max_vis : Int)
    (p q : Prop) [Decidable p] [Decidable q] :
    (if p then fprintf fp "<td></td>".toList
      else if q then print_graph env fp max_hit max_vis m.hits m.visitors else fp)
      = fp ++ (if p then "<td></td>".toList
          else if q then print_graph env [] max_hit max_vis m.hits m.visitors else []) := by
  split
  · rfl
  · split
    · exact print_graph_eq _ _ _ _ _ _
    · simp

theorem print_metrics_text (env : Env) (conf : GConf) (fp : FILE) (m : GMetrics)
    (max_hit max_vis : Int) (sub : Bool) (panel : GOutput) :
    print_metrics env conf fp m max_hit max_vis sub panel
      = fp ++ (if panel.visitors then
            "<td class='num'>".toList ++ env.fmt_num m.visitors ++ "</td>".toList else [])
          ++ (if panel.hits then
            "<td class='num'>".toList ++ env.fmt_num m.hits ++ "</td>".toList else [])
          ++ (if panel.percent then
            "<td class='num'>".toList ++ ("<span class='".toList
              ++ (if decide (max_hit = m.hits) then "max".toList else []) ++ "'>".toList
              ++ env.fmt_percent m.percent ++ "%</span>".toList) ++ "</td>".toList else [])
          ++ (if panel.bw then
            "<td class='num'>".toList ++ escapeForMarkup (env.filesize_str m.bw_nbw)
              ++ "</td>".toList else [])
          ++ (if panel.avgts then
            (if conf.serve_usecs then "<td class='num'>".toList
              ++ escapeForMarkup (env.usecs_to_str m.avgts_nts) ++ "</td>".toList else [])
            else [])
          ++ (if panel.protocol then
            (if conf.append_protocol then "<td>".toList ++ escapeForMarkup m.protocol
              ++ "</td>".toList else []) else [])
          ++ (if panel.method then
            (if conf.append_method then "<td>".toList ++ escapeForMarkup m.method
              ++ "</td>".toList else []) else [])
          ++ (if panel.data then
            "<td>".toList ++ escapeForMarkup m.data ++ "</td>".toList else [])
          ++ (if panel.graph = true ∧ max_hit ≠ 0 ∧ panel.sub_graph = false ∧ sub = true then
              "<td></td>".toList
            else if panel.graph = true ∧ max_hit ≠ 0 then
              print_graph env [] max_hit max_vis m.hits m.visitors
            else []) := by
  simp only [print_metrics, print_metric_visitors_eq, print_metric_hits_eq,
    print_metric_percent_eq, print_metric_bw_eq, print_metric_avgts_eq, print_metric_data_eq,
    print_metric_protocol_eq, print_metric_method_eq, ite_append_self, graph_step_eq]

theorem print_metrics_eq (env : Env) (conf : GConf) (fp : FILE) (m : GMetrics)
    (max_hit max_vis : Int) (sub : Bool) (panel : GOutput) :
    print_metrics env conf fp m max_hit max_vis sub panel
      = fp ++ print_metrics env conf [] m max_hit max_vis sub panel := by
  rw [print_metrics_text, print_metrics_text env conf []]
  simp only [List.append_assoc, List.nil_append]

/-! ### Cells and rows of what is written -/

theorem Piece.num_cell {x : List Char} (hx : NoAngle x) :
    Piece ("<td class='num'>".toList ++ x ++ "</td>".toList) 1 [] :=
  ((show Piece "<td class='num'>".toList 1 [] from ⟨by decide, by decide, by decide⟩).append
    (Piece.text hx.no_lt)).append
    (show Piece "</td>".toList 0 [] from ⟨by decide, by decide, by decide⟩)

theorem Piece.text_cell {x : List Char} (hx : NoAngle x) :
    Piece ("<td>".toList ++ x ++ "</td>".toList) 1 [] :=
  ((show Piece "<td>".toList 1 [] from ⟨by decide, by decide, by decide⟩).append
    (Piece.text hx.no_lt)).append
    (show Piece "</td>".toList 0 [] from ⟨by decide, by decide, by decide⟩)

theorem Piece.percent_cell {x : List Char} (hx : NoAngle x) (b : Bool) :
    Piece ("<td class='num'>".toList ++ ("<span class='".toList
      ++ (if b then "max".toList else []) ++ "'>".toList ++ x ++ "%</span>".toList)
      ++ "</td>".toList) 1 [] := by
  have h1 : Piece "<td class='num'>".toList 1 [] := ⟨by decide, by decide, by decide⟩
  have h2 : Piece ("<span class='".toList ++ (if b then "max".toList else []) ++ "'>".toList)
      0 [] := by
    cases b
    · exact ⟨by decide, by decide, by decide⟩
    · exact ⟨by decide, by decide, by decide⟩
  have h3 : Piece "%</span>".toList 0 [] := ⟨by decide, by decide, by decide⟩
  have h4 : Piece "</td>".toList 0 [] := ⟨by decide, by decide, by decide⟩
  exact (h1.append ((h2.append (Piece.text hx.no_lt)).append h3)).append h4

theorem Piece.div {x : List Char} (hx : NoAngle x) :
    Piece ("<div ".toList ++ x ++ "></div>".toList) 0 [] := by
  have h1 : "<div ".toList ++ x ++ "></div>".toList
      = ('<' :: (("div ".toList ++ x) ++ ['>'])) ++ "</div>".toList := by
    simp
  have hb : ∀ c ∈ "div ".toList ++ x, c ≠ '>' :=
    (NoAngle.join (by decide) hx).no_gt
  have h2 := Piece.tag hb
  have hn : tagName ("div ".toList ++ x) = "div".toList := rfl
  rw [hn] at h2
  rw [h1]
  exact h2.append (show Piece "</div>".toList 0 [] from ⟨by decide, by decide, by decide⟩)

theorem Piece.bar (env : Env) (henv : env.NumbersPlain) (title c : List Char)
    (ht : NoAngle title) (hc : NoAngle c) (l : ℚ) (h : Int) :
    Piece ("<div ".toList ++ title ++ fmt_d (int_of_float l) ++ "%' ".toList ++ c
      ++ " style='width:".toList ++ env.fmt_float l ++ "%;height:".toList ++ fmt_d h
      ++ "px'></div>".toList) 0 [] := by
  have h1 : "<div ".toList ++ title ++ fmt_d (int_of_float l) ++ "%' ".toList ++ c
      ++ " style='width:".toList ++ env.fmt_float l ++ "%;height:".toList ++ fmt_d h
      ++ "px'></div>".toList
      = "<div ".toList ++ (title ++ fmt_d (int_of_float l) ++ "%' ".toList ++ c
      ++ " style='width:".toList ++ env.fmt_float l ++ "%;height:".toList ++ fmt_d h
      ++ "px'".toList) ++ "></div>".toList := by
    simp
  rw [h1]
  refine Piece.div ?_
  exact (((((((ht.join (fmt_d_plain _)).join (by decide)).join hc).join
    (by decide)).join (henv.2.2 l)).join (by decide)).join (fmt_d_plain h)).join
    (by decide)

theorem Piece.of_print_graph (env : Env) (henv : env.NumbersPlain)
    (max_hit max_vis hits visitors : Int) :
    Piece (print_graph env [] max_hit max_vis hits visitors) 1 [] := by
  have h1 : Piece "<td class='graph'>".toList 1 [] := ⟨by decide, by decide, by decide⟩
  have h4 : Piece "</td>\n".toList 0 [] := ⟨by decide, by decide, by decide⟩
  have h2 := Piece.bar env henv "title='Hits:".toList "class='bar'".toList (by decide)
    (by decide) (print_graph_lh max_hit hits) (if max_vis ≠ 0 then 8 else 16)
  have h3 := Piece.bar env henv "title='Visitors: ".toList "class='bar light'".toList
    (by decide) (by decide) (print_graph_lv max_vis visitors) (if max_vis ≠ 0 then 8 else 16)
  have e1 : "<div title='Hits:".toList = "<div ".toList ++ "title='Hits:".toList := by decide
  have e2 : "<div title='Visitors: ".toList = "<div ".toList ++ "title='Visitors: ".toList := by
    decide
  by_cases hv : max_vis = 0
  · simp only [hv, ne_eq, not_true_eq_false, if_false] at h2
    simp only [print_graph, fprintf, List.nil_append, e1, hv, ne_eq,
      not_true_eq_false, if_false]
    simpa only [List.append_assoc] using (h1.append h2).append h4
  · simp only [hv, ne_eq, not_false_eq_true, if_true] at h2 h3
    simp only [print_graph, fprintf, List.nil_append, e1, e2, hv, ne_eq,
      not_false_eq_true, if_true]
    simpa only [List.append_assoc] using ((h1.append h2).append h3).append h4

theorem Piece.cells_append {a b : List Char} {n m : Nat} (ha : Piece a n [])
    (hb : Piece b m []) : Piece (a ++ b) (n + m) [] := by
  simpa using ha.append hb

theorem Piece.cells_ite {p : Prop} [Decidable p] {a : List Char} {n : Nat}
    (h : Piece a n []) : Piece (if p then a else []) (if p then n else 0) [] := by
  split
  · exact h
  · exact Piece.nil

theorem Piece.graph_step (env : Env) (henv : env.NumbersPlain) (panel : GOutput) (sub : Bool)
    (max_hit max_vis hits visitors : Int) :
    Piece (if panel.graph = true ∧ max_hit ≠ 0 ∧ panel.sub_graph = false ∧ sub = true then
        "<td></td>".toList
      else if panel.graph = true ∧ max_hit ≠ 0 then
        print_graph env [] max_hit max_vis hits visitors
      else [])
      (if panel.graph = true ∧ max_hit ≠ 0 then 1 else 0) [] := by
  by_cases h2 : panel.graph = true ∧ max_hit ≠ 0
  · rw [if_pos h2]
    split
    · exact ⟨by decide, by decide, by decide⟩
    · exact Piece.of_print_graph env henv _ _ _ _
  · have h1 : ¬(panel.graph = true ∧ max_hit ≠ 0 ∧ panel.sub_graph = false ∧ sub = true) :=
      fun h => h2 ⟨h.1, h.2.1⟩
    rw [if_neg h1, if_neg h2, if_neg h2]
    exact Piece.nil

theorem Piece.of_print_metrics (env : Env) (henv : env.NumbersPlain) (conf : GConf)
    (m : GMetrics) (max_hit max_vis : Int) (sub : Bool) (panel : GOutput) :
    Piece (print_metrics env conf [] m max_hit max_vis sub panel)
      ((if panel.visitors then 1 else 0) + (if panel.hits then 1 else 0)
        + (if panel.percent then 1 else 0) + (if panel.bw then 1 else 0)
        + (if panel.avgts then (if conf.serve_usecs then 1 else 0) else 0)
        + (if panel.protocol then (if conf.append_protocol then 1 else 0) else 0)
        + (if panel.method then (if conf.append_method then 1 else 0) else 0)
        + (if panel.data then 1 else 0)
        + (if panel.graph = true ∧ max_hit ≠ 0 then 1 else 0)) [] := by
  rw [print_metrics_text, List.nil_append]
  exact ((((((((Piece.cells_ite (Piece.num_cell (henv.1 _))).cells_append
    (Piece.cells_ite (Piece.num_cell (henv.1 _)))).cells_append
    (Piece.cells_ite (Piece.percent_cell (henv.2.1 _) _))).cells_append
    (Piece.cells_ite (Piece.num_cell (escapeForMarkup_noAngle _)))).cells_append
    (Piece.cells_ite (Piece.cells_ite (Piece.num_cell (escapeForMarkup_noAngle _))))).cells_append
    (Piece.cells_ite (Piece.cells_ite (Piece.text_cell (escapeForMarkup_noAngle _))))).cells_append
    (Piece.cells_ite (Piece.cells_ite (Piece.text_cell (escapeForMarkup_noAngle _))))).cells_append
    (Piece.cells_ite (Piece.text_cell (escapeForMarkup_noAngle _)))).cells_append
    (Piece.graph_step env henv panel sub max_hit max_vis m.hits m.visitors)

/-! ### The module maxima -/

theorem get_max_hit_loop_ge_init (h : GHolder) (n i : Nat) (max : Int) :
    max ≤ get_max_hit_loop h n i max := by
  induction n generalizing i max with
  | zero => simp [get_max_hit_loop]
  | succ n ih =>
    simp only [get_max_hit_loop]
    refine le_trans ?_ (ih _ _)
    split <;> omega

theorem get_max_hit_loop_ge_item (h : GHolder) (n i : Nat) (max : Int) (j : Nat)
    (hij : i ≤ j) (hjn : j < i + n) :
    (h.items j).metrics.hits ≤ get_max_hit_loop h n i max := by
  induction n generalizing i max with
  | zero => omega
  | succ n ih =>
    simp only [get_max_hit_loop]
    rcases Nat.eq_or_lt_of_le hij with rfl | hlt
    · refine le_trans ?_ (get_max_hit_loop_ge_init h n _ _)
      split <;> omega
    · exact ih _ _ hlt (by omega)

theorem get_max_hit_loop_attained (h : GHolder) (n i : Nat) (max : Int) :
    get_max_hit_loop h n i max = max
      ∨ ∃ j, i ≤ j ∧ j < i + n ∧ (h.items j).metrics.hits = get_max_hit_loop h n i max := by
  induction n generalizing i max with
  | zero => simp [get_max_hit_loop]
  | succ n ih =>
    simp only [get_max_hit_loop]
    rcases ih (i + 1) (if (h.items i).metrics.hits > max then (h.items i).metrics.hits else max)
      with h1 | ⟨j, h1, h2, h3⟩
    · rw [h1]
      split
      · exact Or.inr ⟨i, le_refl _, by omega, rfl⟩
      · exact Or.inl rfl
    · exact Or.inr ⟨j, by omega, by omega, h3⟩

theorem get_max_visitor_loop_ge_init (h : GHolder) (n i : Nat) (max : Int) :
    max ≤ get_max_visitor_loop h n i max := by
  induction n generalizing i max with
  | zero => simp [get_max_visitor_loop]
  | succ n ih =>
    simp only [get_max_visitor_loop]
    refine le_trans ?_ (ih _ _)
    split <;> omega

theorem get_max_visitor_loop_ge_item (h : GHolder) (n i : Nat) (max : Int) (j : Nat)
    (hij : i ≤ j) (hjn : j < i + n) :
    (h.items j).metrics.visitors ≤ get_max_visitor_loop h n i max := by
  induction n generalizing i max with
  | zero => omega
  | succ n ih =>
    simp only [get_max_visitor_loop]
    rcases Nat.eq_or_lt_of_le hij with rfl | hlt
    · refine le_trans ?_ (get_max_visitor_loop_ge_init h n _ _)
      split <;> omega
    · exact ih _ _ hlt (by omega)

theorem get_max_hit_ge (h : GHolder) (i : Nat) (hi : i < h.idx) :
    (h.items i).metrics.hits ≤ get_max_hit h :=
  get_max_hit_loop_ge_item h h.idx 0 0 i (Nat.zero_le _) (by omega)

theorem get_max_visitor_ge (h : GHolder) (i : Nat) (hi : i < h.idx) :
    (h.items i).metrics.visitors ≤ get_max_visitor h :=
  get_max_visitor_loop_ge_item h h.idx 0 0 i (Nat.zero_le _) (by omega)

theorem get_max_hit_attained (h : GHolder) (hpos : 0 < get_max_hit h) :
    ∃ i, i < h.idx ∧ (h.items i).metrics.hits = get_max_hit h := by
  rcases get_max_hit_loop_attained h h.idx 0 0 with h0 | ⟨j, _, h2, h3⟩
  · unfold get_max_hit at hpos
    omega
  · exact ⟨j, by omega, h3⟩

/-! ### The bar scaler -/

theorem get_percentage_le (total hit : Int) (ht : 0 < total) (hle : hit ≤ total) :
    get_percentage total hit ≤ 100 := by
  unfold get_percentage
  have h0 : (0 : ℚ) < (total : ℚ) := by exact_mod_cast ht
  rw [div_le_iff₀ h0]
  have : ((hit * 100 : Int) : ℚ) ≤ ((total * 100 : Int) : ℚ) := by
    exact_mod_cast (by omega : hit * 100 ≤ total * 100)
  calc ((hit * 100 : Int) : ℚ) ≤ ((total * 100 : Int) : ℚ) := this
    _ = 100 * (total : ℚ) := by push_cast; ring

theorem get_percentage_self (total : Int) (ht : 0 < total) :
    get_percentage total total = 100 := by
  unfold get_percentage
  have h0 : (total : ℚ) ≠ 0 := by
    have : (0 : ℚ) < (total : ℚ) := by exact_mod_cast ht
    exact ne_of_gt this
  push_cast
  field_simp

theorem get_percentage_zero (total : Int) : get_percentage total 0 = 0 := by
  simp [get_percentage]

theorem clamp_bounds (total value : Int) (ht : 0 < total) (hle : value ≤ total) :
    1 ≤ print_graph_lh total value ∧ print_graph_lh total value ≤ 100
      ∧ 1 ≤ int_of_float (print_graph_lh total value)
      ∧ int_of_float (print_graph_lh total value) ≤ 100 := by
  have hp := get_percentage_le total value ht hle
  have h1 : 1 ≤ print_graph_lh total value := by
    unfold print_graph_lh
    simp only
    split
    · exact le_refl _
    · linarith
  have h2 : print_graph_lh total value ≤ 100 := by
    unfold print_graph_lh
    simp only
    split
    · norm_num
    · exact hp
  refine ⟨h1, h2, ?_, ?_⟩
  · unfold int_of_float
    rw [if_pos (by linarith)]
    exact Int.le_floor.2 (by exact_mod_cast h1)
  · unfold int_of_float
    rw [if_pos (by linarith)]
    have : (⌊print_graph_lh total value⌋ : ℚ) ≤ 100 := le_trans (Int.floor_le _) h2
    exact_mod_cast this

theorem print_graph_lh_eq_max (max_hit hits : Int) :
    print_graph_lh max_hit hits = max 1 (((hits * 100 : Int) : ℚ) / (max_hit : ℚ)) := by
  unfold print_graph_lh get_percentage
  simp only
  split
  · rw [max_eq_left (le_of_lt ‹_›)]
  · rw [max_eq_right (not_lt.1 ‹_›)]

theorem int_of_float_one : int_of_float (1 : ℚ) = 1 := by
  unfold int_of_float
  rw [if_pos (by norm_num)]
  exact_mod_cast Int.floor_intCast (1 : Int)

theorem print_graph_lh_zero (max_hit : Int) : print_graph_lh max_hit 0 = 1 := by
  unfold print_graph_lh
  simp only [get_percentage_zero]
  norm_num

/-! ### Rows -/

theorem print_html_begin_tr_eq (fp : FILE) (hide sub : Bool) :
    print_html_begin_tr fp hide sub = fp ++ print_html_begin_tr [] hide sub := by
  cases hide <;> cases sub <;> simp [print_html_begin_tr, fprintf]

theorem print_html_sub_items_loop_eq (env : Env) (conf : GConf)
    (processed max_hit max_vis : Int) (panel : GOutput) (l : List GSubItem) (fp : FILE) :
    print_html_sub_items_loop env conf processed max_hit max_vis panel l fp
      = fp ++ l.flatMap (fun iter => "<tr class='hide sub'>".toList
          ++ print_metrics env conf [] (env.set_data_metrics iter.metrics processed)
              max_hit max_vis true panel
          ++ "</tr>".toList) := by
  induction l generalizing fp with
  | nil => simp [print_html_sub_items_loop]
  | cons iter next ih =>
    simp only [print_html_sub_items_loop, ih, List.flatMap_cons]
    rw [print_metrics_eq]
    have e : print_html_begin_tr fp true true = fp ++ "<tr class='hide sub'>".toList := by
      rw [print_html_begin_tr_eq]; rfl
    simp only [e, print_html_end_tr, fprintf, List.append_assoc]

theorem print_html_sub_items_eq (env : Env) (conf : GConf) (fp : FILE) (h : GHolder)
    (idx : Nat) (processed max_hit max_vis : Int) (panel : GOutput) :
    print_html_sub_items env conf fp h idx processed max_hit max_vis panel
      = fp ++ (match (h.items idx).sub_list with
          | none => []
          | some sub_list => sub_list.head).flatMap
          (fun iter => "<tr class='hide sub'>".toList
            ++ print_metrics env conf [] (env.set_data_metrics iter.metrics processed)
                max_hit max_vis true panel
            ++ "</tr>".toList) := by
  unfold print_html_sub_items
  cases (h.items idx).sub_list with
  | none => simp
  | some sub_list => simp only [print_html_sub_items_loop_eq]

theorem print_html_data_loop_eq (env : Env) (conf : GConf) (h : GHolder)
    (processed max_hit max_vis : Int) (panel : GOutput) (n i : Nat) (fp : FILE) :
    print_html_data_loop env conf h processed max_hit max_vis panel n i fp
      = fp ++ (List.range' i n).flatMap (fun k =>
          print_html_begin_tr [] (decide (k > env.OUTPUT_N)) false
          ++ print_metrics env conf [] (env.set_data_metrics (h.items k).metrics processed)
              max_hit max_vis false panel
          ++ "</tr>".toList
          ++ (if h.sub_items_size ≠ 0 then
                print_html_sub_items env conf [] h k processed max_hit max_vis panel
              else [])) := by
  induction n generalizing i fp with
  | zero => simp [print_html_data_loop]
  | succ n ih =>
    simp only [print_html_data_loop, ih, List.range'_succ, List.flatMap_cons]
    rw [print_metrics_eq, print_html_begin_tr_eq]
    by_cases hs : h.sub_items_size = 0
    · simp only [hs, ne_eq, not_true_eq_false, if_false, print_html_end_tr, fprintf,
        List.append_assoc, List.append_nil]
    · simp only [hs, ne_eq, not_false_eq_true, if_true, print_html_end_tr, fprintf,
        List.append_assoc]
      rw [print_html_sub_items_eq, print_html_sub_items_eq env conf []]
      simp only [List.append_assoc, List.nil_append]

theorem print_html_data_eq (env : Env) (conf : GConf) (fp : FILE) (h : GHolder)
    (processed max_hit max_vis : Int) (panel : GOutput) :
    print_html_data env conf fp h processed max_hit max_vis panel
      = fp ++ (List.range h.idx).flatMap (fun k =>
          print_html_begin_tr [] (decide (k > env.OUTPUT_N)) false
          ++ print_metrics env conf [] (env.set_data_metrics (h.items k).metrics processed)
              max_hit max_vis false panel
          ++ "</tr>".toList
          ++ (if h.sub_items_size ≠ 0 then
                print_html_sub_items env conf [] h k processed max_hit max_vis panel
              else [])) := by
  unfold print_html_data
  rw [print_html_data_loop_eq, List.range_eq_range']

theorem Piece.sub_row (env : Env) (henv : env.NumbersPlain) (conf : GConf) (m : GMetrics)
    (max_hit max_vis : Int) (panel : GOutput) :
    ∃ n, Piece ("<tr class='hide sub'>".toList
      ++ print_metrics env conf [] m max_hit max_vis true panel ++ "</tr>".toList) n
      ["tr class='hide sub'".toList] := by
  have h1 : Piece "<tr class='hide sub'>".toList 0 ["tr class='hide sub'".toList] :=
    ⟨by decide, by decide, by decide⟩
  have h3 : Piece "</tr>".toList 0 [] := ⟨by decide, by decide, by decide⟩
  have h2 := Piece.of_print_metrics env henv conf m max_hit max_vis true panel
  exact ⟨_, by simpa using (h1.append h2).append h3⟩

theorem Piece.sub_rows (env : Env) (henv : env.NumbersPlain) (conf : GConf) (h : GHolder)
    (k : Nat) (processed max_hit max_vis : Int) (panel : GOutput) :
    ∃ n, Piece (print_html_sub_items env conf [] h k processed max_hit max_vis panel) n
      (List.replicate (children h k).length "tr class='hide sub'".toList) := by
  rw [print_html_sub_items_eq, List.nil_append]
  change ∃ n, Piece ((children h k).flatMap _) n _
  generalize children h k = l
  induction l with
  | nil => exact ⟨0, Piece.nil⟩
  | cons c l ih =>
    obtain ⟨n, hn⟩ := ih
    obtain ⟨m, hm⟩ := Piece.sub_row env henv conf (env.set_data_metrics c.metrics processed)
      max_hit max_vis panel
    refine ⟨m + n, ?_⟩
    simp only [List.flatMap_cons, List.length_cons, List.replicate_succ]
    exact hm.append hn

theorem Piece.entry (env : Env) (henv : env.NumbersPlain) (conf : GConf) (h : GHolder)
    (k : Nat) (processed max_hit max_vis : Int) (panel : GOutput) :
    ∃ n, Piece (print_html_begin_tr [] (decide (k > env.OUTPUT_N)) false
        ++ print_metrics env conf [] (env.set_data_metrics (h.items k).metrics processed)
            max_hit max_vis false panel
        ++ "</tr>".toList
        ++ (if h.sub_items_size ≠ 0 then
              print_html_sub_items env conf [] h k processed max_hit max_vis panel
            else [])) n
      ((if k > env.OUTPUT_N then "tr class='hide root'".toList else "tr class='root'".toList)
        :: (if h.sub_items_size ≠ 0 then
              List.replicate (children h k).length "tr class='hide sub'".toList
            else [])) := by
  have h1 : Piece (print_html_begin_tr [] (decide (k > env.OUTPUT_N)) false) 0
      [if k > env.OUTPUT_N then "tr class='hide root'".toList else "tr class='root'".toList] := by
    by_cases hk : k > env.OUTPUT_N
    · simp only [hk, decide_True, if_true]
      exact ⟨by decide, by decide, by decide⟩
    · simp only [hk, decide_False, if_false]
      exact ⟨by decide, by decide, by decide⟩
  have h2 := Piece.of_print_metrics env henv conf
    (env.set_data_metrics (h.items k).metrics processed) max_hit max_vis false panel
  have h3 : Piece "</tr>".toList 0 [] := ⟨by decide, by decide, by decide⟩
  by_cases hs : h.sub_items_size = 0
  · simp only [hs, ne_eq, not_true_eq_false, if_false, List.append_nil]
    exact ⟨_, by simpa using (h1.append h2).append h3⟩
  · obtain ⟨n, hn⟩ := Piece.sub_rows env henv conf h k processed max_hit max_vis panel
    simp only [hs, ne_eq, not_false_eq_true, if_true]
    exact ⟨_, by simpa using ((h1.append h2).append h3).append hn⟩

theorem rowTags_print_html_data (env : Env) (henv : env.NumbersPlain) (conf : GConf)
    (h : GHolder) (processed max_hit max_vis : Int) (panel : GOutput) :
    scanEnd none (print_html_data env conf [] h processed max_hit max_vis panel) = none
    ∧ rowTags (print_html_data env conf [] h processed max_hit max_vis panel)
      = (List.range h.idx).flatMap (fun k =>
          (if k > env.OUTPUT_N then "tr class='hide root'".toList
            else "tr class='root'".toList)
          :: (if h.sub_items_size ≠ 0 then
                List.replicate (children h k).length "tr class='hide sub'".toList
              else [])) := by
  rw [print_html_data_eq, List.nil_append]
  generalize List.range h.idx = l
  induction l with
  | nil => exact ⟨rfl, rfl⟩
  | cons k l ih =>
    obtain ⟨n, hn⟩ := Piece.entry env henv conf h k processed max_hit max_vis panel
    simp only [List.flatMap_cons]
    constructor
    · rw [scanEnd_append, hn.closed, ih.1]
    · rw [rowTags, tags_append hn.closed, List.filter_append]
      have h1 := hn.rows_eq
      have h2 := ih.2
      unfold rowTags at h1 h2
      rw [h1, h2]

theorem sampleEnv_numbersPlain : sampleEnv.NumbersPlain :=
  ⟨fun n => fmt_d_plain n, fun q => fmt_d_plain (int_of_float q),
    fun q => fmt_d_plain (int_of_float q)⟩

theorem countP_root_entries (N : Nat) (c : Nat → Nat) (l : List Nat) :
    (l.flatMap (fun k =>
        (if k > N then "tr class='hide root'".toList else "tr class='root'".toList)
        :: List.replicate (c k) "tr class='hide sub'".toList)).countP
      (fun t => t == "tr class='root'".toList || t == "tr class='hide root'".toList)
      = l.length := by
  induction l with
  | nil => rfl
  | cons k l ih =>
    have hsub : (List.replicate (c k) "tr class='hide sub'".toList).countP
        (fun t => t == "tr class='root'".toList || t == "tr class='hide root'".toList)
        = 0 := by
      rw [List.countP_eq_zero]
      intro t ht
      rw [(List.mem_replicate.1 ht).2]
      decide
    have hroot : (fun t => t == "tr class='root'".toList || t == "tr class='hide root'".toList)
        (if k > N then "tr class='hide root'".toList else "tr class='root'".toList)
        = true := by
      split <;> decide
    simp only [List.flatMap_cons, List.countP_append, List.countP_cons, hroot, if_true, ih,
      hsub, List.length_cons]
    omega

theorem range_split (n k : Nat) (hk : k < n) :
    List.range n = List.range k ++ k :: List.range' (k + 1) (n - k - 1) := by
  have h1 : n = ((n - k - 1) + 1) + k := by omega
  rw [List.range_eq_range', List.range_eq_range']
  conv_lhs => rw [h1]
  rw [← List.range'_append_1, List.range'_succ]
  simp

theorem get_max_hit_of_idx_zero (h : GHolder) (h0 : h.idx = 0) : get_max_hit h = 0 := by
  simp [get_max_hit, h0, get_max_hit_loop]

theorem print_html_data_of_idx_zero (env : Env) (conf : GConf) (fp : FILE) (h : GHolder)
    (processed max_hit max_vis : Int) (panel : GOutput) (h0 : h.idx = 0) :
    print_html_data env conf fp h processed max_hit max_vis panel = fp := by
  simp [print_html_data, h0, print_html_data_loop]

theorem print_table_head_eq (env : Env) (fp : FILE) (module : GModule) :
    print_table_head env fp module = fp ++ print_table_head env [] module := by
  unfold print_table_head print_html_h2 print_p
  cases env.module_to_id module <;> simp [fprintf]

/-! ### The registry -/

theorem get_max_visitor_loop_attained (h : GHolder) (n i : Nat) (max : Int) :
    get_max_visitor_loop h n i max = max
      ∨ ∃ j, i ≤ j ∧ j < i + n
          ∧ (h.items j).metrics.visitors = get_max_visitor_loop h n i max := by
  induction n generalizing i max with
  | zero => simp [get_max_visitor_loop]
  | succ n ih =>
    simp only [get_max_visitor_loop]
    rcases ih (i + 1)
      (if (h.items i).metrics.visitors > max then (h.items i).metrics.visitors else max)
      with h1 | ⟨j, h1, h2, h3⟩
    · rw [h1]
      split
      · exact Or.inr ⟨i, le_refl _, by omega, rfl⟩
      · exact Or.inl rfl
    · exact Or.inr ⟨j, by omega, by omega, h3⟩

theorem get_max_hit_loop_congr (h g : GHolder) (n i : Nat) (max : Int)
    (hm : ∀ j, i ≤ j → j < i + n → (h.items j).metrics.hits = (g.items j).metrics.hits) :
    get_max_hit_loop h n i max = get_max_hit_loop g n i max := by
  induction n generalizing i max with
  | zero => rfl
  | succ n ih =>
    simp only [get_max_hit_loop]
    rw [hm i (le_refl _) (by omega)]
    exact ih _ _ (fun j h1 h2 => hm j (by omega) (by omega))

theorem get_max_visitor_loop_congr (h g : GHolder) (n i : Nat) (max : Int)
    (hm : ∀ j, i ≤ j → j < i + n →
      (h.items j).metrics.visitors = (g.items j).metrics.visitors) :
    get_max_visitor_loop h n i max = get_max_visitor_loop g n i max := by
  induction n generalizing i max with
  | zero => rfl
  | succ n ih =>
    simp only [get_max_visitor_loop]
    rw [hm i (le_refl _) (by omega)]
    exact ih _ _ (fun j h1 h2 => hm j (by omega) (by omega))

theorem entity_append_inj (c d : Char) (x y : List Char)
    (h : entity c ++ x = entity d ++ y) : c = d ∧ x = y := by
  unfold entity at h
  split_ifs at h <;> simp at h <;> (obtain ⟨rfl, rfl⟩ := h; simp_all)

theorem escapeForMarkup_injective (s t : List Char)
    (h : escapeForMarkup s = escapeForMarkup t) : s = t := by
  induction s generalizing t with
  | nil =>
    cases t with
    | nil => rfl
    | cons d t =>
      exfalso
      have hd : escapeForMarkup (d :: t) = entity d ++ escapeForMarkup t := by
        simp [escapeForMarkup]
      rw [hd] at h
      have hne : entity d ≠ [] := by
        unfold entity
        split_ifs <;> simp
      have : entity d = [] := by
        have h' := h.symm
        simp only [escapeForMarkup, List.flatMap_nil] at h'
        exact (List.append_eq_nil.1 h').1
      exact hne this
  | cons c s ih =>
    have hc : escapeForMarkup (c :: s) = entity c ++ escapeForMarkup s := by
      simp [escapeForMarkup]
    cases t with
    | nil =>
      exfalso
      rw [hc] at h
      have hne : entity c ≠ [] := by
        unfold entity
        split_ifs <;> simp
      have : entity c = [] := by
        simp only [escapeForMarkup, List.flatMap_nil] at h
        exact (List.append_eq_nil.1 h).1
      exact hne this
    | cons d t =>
      have hd : escapeForMarkup (d :: t) = entity d ++ escapeForMarkup t := by
        simp [escapeForMarkup]
      rw [hc, hd] at h
      obtain ⟨h1, h2⟩ := entity_append_inj c d _ _ h
      rw [h1, ih t h2]

/-! ### The three strategies, piece by piece -/

theorem print_html_visitors_eq (env : Env) (conf : GConf) (fp : FILE) (h : GHolder)
    (processed : Int) (panel : GOutput) :
    print_html_visitors env conf fp h processed panel
      = fp ++ print_table_head env [] h.module ++ "<table class=\"pure-table\">\n".toList
        ++ "<thead>\n".toList ++ visitors_head_row conf ++ "</thead>\n".toList
        ++ "<tbody>\n".toList
        ++ print_html_data env conf [] h processed (get_max_hit h) (get_max_visitor h) panel
        ++ "</tbody>\n".toList ++ "</table>\n".toList := by
  simp only [print_html_visitors]
  rw [print_html_data_eq, print_html_data_eq env conf [], print_table_head_eq]
  simp only [print_html_begin_table, print_html_begin_thead, print_html_end_thead,
    print_html_begin_tbody, print_html_end_tbody, print_html_end_table, fprintf,
    ite_append_self, visitors_head_row]
  simp only [List.append_assoc, List.nil_append]

theorem print_html_requests_eq (env : Env) (conf : GConf) (fp : FILE) (h : GHolder)
    (processed : Int) (panel : GOutput) :
    print_html_requests env conf fp h processed panel
      = fp ++ print_table_head env [] h.module ++ "<table class=\"pure-table\">\n".toList
        ++ "<thead>\n".toList ++ requests_head_row conf ++ "</thead>\n".toList
        ++ "<tbody>\n".toList
        ++ print_html_data env conf [] h processed 0 0 panel
        ++ "</tbody>\n".toList ++ "</table>\n".toList := by
  simp only [print_html_requests]
  rw [print_html_data_eq, print_html_data_eq env conf [], print_table_head_eq]
  simp only [print_html_begin_table, print_html_begin_thead, print_html_end_thead,
    print_html_begin_tbody, print_html_end_tbody, print_html_end_table, fprintf,
    ite_append_self, requests_head_row]
  simp only [List.append_assoc, List.nil_append]

theorem print_html_common_eq (env : Env) (conf : GConf) (fp : FILE) (h : GHolder)
    (processed : Int) (panel : GOutput) :
    print_html_common env conf fp h processed panel
      = fp ++ print_table_head env [] h.module ++ "<table class=\"pure-table\">\n".toList
        ++ "<thead>\n".toList
        ++ common_head_row conf (env.module_to_label h.module)
            (if panel.graph then get_max_hit h else 0)
        ++ "</thead>\n".toList ++ "<tbody>\n".toList
        ++ print_html_data env conf [] h processed (if panel.graph then get_max_hit h else 0)
            (if panel.graph then get_max_visitor h else 0) panel
        ++ "</tbody>\n".toList ++ "</table>\n".toList := by
  simp only [print_html_common]
  rw [print_html_data_eq, print_html_data_eq env conf [], print_table_head_eq]
  simp only [print_html_begin_table, print_html_begin_thead, print_html_end_thead,
    print_html_begin_tbody, print_html_end_tbody, print_html_end_table, fprintf,
    ite_append_self, common_head_row]
  simp only [List.append_assoc, List.nil_append]

theorem call_render_eq (panel : GOutput) (env : Env) (conf : GConf) (fp : FILE) (h : GHolder)
    (processed : Int) :
    panel.call_render env conf fp h processed
      = fp ++ panel.call_render env conf [] h processed := by
  unfold GOutput.call_render
  cases panel.render
  · simp only []
    rw [print_html_visitors_eq, print_html_visitors_eq env conf []]
    simp only [List.append_assoc, List.nil_append]
  · simp only []
    rw [print_html_requests_eq, print_html_requests_eq env conf []]
    simp only [List.append_assoc, List.nil_append]
  · simp only []
    rw [print_html_common_eq, print_html_common_eq env conf []]
    simp only [List.append_assoc, List.nil_append]

/-! ### Header columns -/

theorem HeadPiece.glue {a b : List Char} {n m : Nat} (ha : HeadPiece a n)
    (hb : HeadPiece b m) : HeadPiece (a ++ b) (n + m) := by
  refine ⟨?_, ?_⟩
  · rw [scanEnd_append, ha.closed, hb.closed]
  · have := ha.heads_eq; have := hb.heads_eq
    simp_all [countHeads, tags_append ha.closed]

theorem HeadPiece.plain {s : List Char} (h : ∀ c ∈ s, c ≠ '<') : HeadPiece s 0 := by
  have := scan_text_none s h
  exact ⟨this.2, by simp [countHeads, tags, this.1]⟩

theorem HeadPiece.opt {p : Prop} [Decidable p] {a : List Char} {n : Nat}
    (h : HeadPiece a n) : HeadPiece (if p then a else []) (if p then n else 0) := by
  split
  · exact h
  · exact ⟨rfl, rfl⟩

theorem HeadPiece.of_visitors_head_row (conf : GConf) :
    HeadPiece (visitors_head_row conf) (6 + (if conf.serve_usecs then 1 else 0)) := by
  unfold visitors_head_row
  cases conf.serve_usecs
  · exact ⟨by decide, by decide⟩
  · exact ⟨by decide, by decide⟩

theorem HeadPiece.of_requests_head_row (conf : GConf) :
    HeadPiece (requests_head_row conf)
      (5 + (if conf.serve_usecs then 1 else 0) + (if conf.append_protocol then 1 else 0)
        + (if conf.append_method then 1 else 0)) := by
  unfold requests_head_row
  cases conf.serve_usecs <;> cases conf.append_protocol <;> cases conf.append_method <;>
    exact ⟨by decide, by decide⟩

theorem HeadPiece.of_common_head_row (conf : GConf) (lbl : List Char) (max_hit : Int)
    (hl : ∀ c ∈ lbl, c ≠ '<') :
    HeadPiece (common_head_row conf lbl max_hit)
      (4 + (if conf.serve_usecs then 1 else 0) + (if max_hit ≠ 0 then 1 else 0) + 1) := by
  have h0 : HeadPiece ("<tr>".toList ++ "<th>Visitors</th>".toList ++ "<th>Hits</th>".toList
      ++ "<th>%</th>".toList ++ "<th>Bandwidth</th>".toList) 4 := ⟨by decide, by decide⟩
  have h1 : HeadPiece (if conf.serve_usecs then "<th>Time&nbsp;served</th>".toList else [])
      (if conf.serve_usecs then 1 else 0) :=
    HeadPiece.opt ⟨by decide, by decide⟩
  have hth : HeadPiece "<th>".toList 1 := ⟨by decide, by decide⟩
  have hcl : HeadPiece "</th>".toList 0 := ⟨by decide, by decide⟩
  have h4 : HeadPiece ("<span class='r icon-expand' onclick='t(this)'>&#8199;</span>".toList
      ++ "</th>".toList ++ "</tr>".toList) 0 := ⟨by decide, by decide⟩
  have hlbl : HeadPiece lbl 0 := HeadPiece.plain hl
  unfold common_head_row
  by_cases hm : max_hit = 0
  · have h3 : HeadPiece ("<th class='".toList ++ [] ++ "'>".toList ++ lbl) 1 := by
      simpa using (show HeadPiece ("<th class='".toList ++ [] ++ "'>".toList) 1 from
        ⟨by decide, by decide⟩).glue hlbl
    simp only [hm, ne_eq, not_true_eq_false, if_false, List.append_nil]
    simp only [List.append_nil] at h3
    simpa only [List.append_assoc, Nat.add_zero] using ((h0.glue h1).glue h3).glue h4
  · have h2 : HeadPiece ("<th>".toList ++ lbl ++ "</th>".toList) 1 := by
      simpa using (hth.glue hlbl).glue hcl
    have h3 : HeadPiece ("<th class='".toList ++ "fr".toList ++ "'>".toList) 1 :=
      ⟨by decide, by decide⟩
    simp only [hm, ne_eq, not_false_eq_true, if_true, List.append_nil]
    simpa only [List.append_assoc, Nat.add_zero] using
      (((h0.glue h1).glue h2).glue h3).glue h4

theorem paneling_flags (geoip : Bool) :
    ∀ panel ∈ paneling geoip,
      panel.visitors = true ∧ panel.hits = true ∧ panel.percent = true ∧ panel.bw = true
      ∧ panel.avgts = true ∧ panel.data = true
      ∧ (panel.render = Render.print_html_common →
          panel.protocol = false ∧ panel.method = false) := by
  cases geoip <;> decide

theorem call_render_parts (panel : GOutput) (env : Env) (conf : GConf) (fp : FILE)
    (h : GHolder) (processed : Int) :
    panel.call_render env conf fp h processed
      = fp ++ print_table_head env [] h.module ++ "<table class=\"pure-table\">\n".toList
        ++ "<thead>\n".toList ++ head_row env conf panel h ++ "</thead>\n".toList
        ++ "<tbody>\n".toList
        ++ print_html_data env conf [] h processed (row_maxima panel h).1 (row_maxima panel h).2
            panel
        ++ "</tbody>\n".toList ++ "</table>\n".toList := by
  unfold GOutput.call_render head_row row_maxima
  cases panel.render
  · exact print_html_visitors_eq env conf fp h processed panel
  · exact print_html_requests_eq env conf fp h processed panel
  · exact print_html_common_eq env conf fp h processed panel

theorem HeadPiece.of_head_row (env : Env) (conf : GConf) (panel : GOutput) (h : GHolder)
    (hl : ∀ c ∈ env.module_to_label h.module, c ≠ '<') :
    HeadPiece (head_row env conf panel h)
      (match panel.render with
        | .print_html_visitors => 6 + (if conf.serve_usecs then 1 else 0)
        | .print_html_requests =>
          5 + (if conf.serve_usecs then 1 else 0) + (if conf.append_protocol then 1 else 0)
            + (if conf.append_method then 1 else 0)
        | .print_html_common =>
          4 + (if conf.serve_usecs then 1 else 0)
            + (if (if panel.graph then get_max_hit h else 0) ≠ 0 then 1 else 0) + 1) := by
  unfold head_row
  cases panel.render
  · exact HeadPiece.of_visitors_head_row conf
  · exact HeadPiece.of_requests_head_row conf
  · exact HeadPiece.of_common_head_row conf _ _ hl

/-! ### The document, piece by piece -/

theorem print_html_header_eq (assets : Assets) (fp : FILE) (now : List Char) :
    print_html_header assets fp now = fp ++ print_html_header assets [] now := by
  simp only [print_html_header, fprintf, List.append_assoc, List.nil_append]

theorem print_pure_menu_eq (ui : Ui) (geoip : Bool) (fp : FILE) (now : List Char) :
    print_pure_menu ui geoip fp now = fp ++ print_pure_menu ui geoip [] now := by
  simp only [print_pure_menu, fprintf, ite_append_self]
  simp only [List.append_assoc, List.nil_append]

theorem print_html_footer_eq (fp : FILE) :
    print_html_footer fp = fp ++ print_html_footer [] := by
  simp only [print_html_footer, fprintf, List.append_assoc, List.nil_append]

set_option maxRecDepth 8000 in
theorem print_html_summary_eq (env : Env) (store : Store) (ui : Ui) (conf : GConf)
    (fp : FILE) (logger : GLog) :
    (print_html_summary env store ui conf fp logger).1
        = fp ++ (print_html_summary env store ui conf [] logger).1
    ∧ (print_html_summary env store ui conf fp logger).2
        = (print_html_summary env store ui conf [] logger).2 := by
  constructor
  · simp only [print_html_summary, print_html_h2, print_html_begin_grid,
      print_html_begin_col_wrap, print_html_begin_grid_col, print_html_begin_grid_module,
      print_html_col_title, print_html_end_col_wrap, print_html_end_div, fprintf,
      List.append_assoc, List.nil_append]
  · rfl

theorem output_html_loop_eq (env : Env) (conf : GConf) (geoip : Bool) (logger : GLog)
    (holder : GModule → GHolder) (ms : List GModule) (fp : FILE) :
    output_html_loop env conf geoip logger holder ms fp
      = fp ++ ms.flatMap (fun module =>
          match panel_lookup geoip module with
          | none => []
          | some panel => panel.call_render env conf [] (holder module) logger.process) := by
  induction ms generalizing fp with
  | nil => simp [output_html_loop]
  | cons module rest ih =>
    simp only [output_html_loop, List.flatMap_cons]
    cases panel_lookup geoip module with
    | none => simp only [ih, List.nil_append]
    | some panel =>
      simp only [ih]
      rw [call_render_eq]
      simp only [List.append_assoc]

theorem summary_counter_eq (fp : FILE) (title value : List Char) :
    print_html_end_col_wrap (fprintf (print_html_col_title (print_html_begin_col_wrap fp 6)
      title) value) = fp ++ summary_counter title value := by
  simp only [summary_counter, print_html_begin_col_wrap, print_html_begin_grid_col,
    print_html_begin_grid_module, print_html_col_title, print_html_end_col_wrap,
    print_html_end_div, fprintf, List.append_assoc, List.nil_append]

theorem int_of_float_intCast (n : Int) (hn : 0 ≤ n) : int_of_float (n : ℚ) = n := by
  unfold int_of_float
  rw [if_pos (by exact_mod_cast hn)]
  exact Int.floor_intCast n

/-! ### The percentage cell -/

theorem paneling_visitors_flags (geoip : Bool) :
    ∀ panel ∈ paneling geoip, panel.render = Render.print_html_visitors →
      panel.protocol = false ∧ panel.method = false ∧ panel.graph = true := by
  cases geoip <;> decide

theorem tags_print_metric_percent (env : Env) (henv : env.NumbersPlain) (m : GMetrics)
    (b : Bool) :
    tags (print_metric_percent env [] m b)
      = ["td class='num'".toList,
          if b then "span class='max'".toList else "span class=''".toList,
          "/span".toList, "/td".toList] := by
  have hx := scan_text_none _ (henv.2.1 m.percent).no_lt
  have c1 : scanEnd none ("<td class='num'>".toList ++ ("<span class='".toList
      ++ (if b then "max".toList else []) ++ "'>".toList)) = none := by
    cases b <;> decide
  have t1 : tags ("<td class='num'>".toList ++ ("<span class='".toList
      ++ (if b then "max".toList else []) ++ "'>".toList))
      = ["td class='num'".toList,
          if b then "span class='max'".toList else "span class=''".toList] := by
    cases b <;> decide
  have t3 : tags ("%</span>".toList ++ "</td>".toList) = ["/span".toList, "/td".toList] := by
    decide
  have e : print_metric_percent env [] m b
      = ("<td class='num'>".toList ++ ("<span class='".toList
          ++ (if b then "max".toList else []) ++ "'>".toList))
        ++ (env.fmt_percent m.percent ++ ("%</span>".toList ++ "</td>".toList)) := by
    rw [print_metric_percent_eq]
    simp only [List.nil_append, List.append_assoc]
  rw [e, tags_append c1, tags_append hx.2, t1, t3]
  have : tags (env.fmt_percent m.percent) = [] := hx.1
  rw [this]
  rfl

/-! ### The row of one entry inside the body -/

theorem print_html_data_split (env : Env) (conf : GConf) (h : GHolder)
    (processed max_hit max_vis : Int) (panel : GOutput) (k : Nat) (hk : k < h.idx) :
    print_html_data env conf [] h processed max_hit max_vis panel
      = print_html_data env conf [] { h with idx := k } processed max_hit max_vis panel
        ++ (print_html_begin_tr [] (decide (k > env.OUTPUT_N)) false
          ++ print_metrics env conf [] (env.set_data_metrics (h.items k).metrics processed)
              max_hit max_vis false panel
          ++ "</tr>".toList)
        ++ ((if h.sub_items_size ≠ 0 then
              print_html_sub_items env conf [] h k processed max_hit max_vis panel else [])
          ++ (List.range' (k + 1) (h.idx - k - 1)).flatMap (fun k =>
              (print_html_begin_tr [] (decide (k > env.OUTPUT_N)) false
                ++ print_metrics env conf []
                    (env.set_data_metrics (h.items k).metrics processed)
                    max_hit max_vis false panel
                ++ "</tr>".toList)
              ++ (if h.sub_items_size ≠ 0 then
                    print_html_sub_items env conf [] h k processed max_hit max_vis panel
                  else []))) := by
  have hsub : ∀ j, print_html_sub_items env conf [] { h with idx := k } j processed max_hit
      max_vis panel = print_html_sub_items env conf [] h j processed max_hit max_vis panel :=
    fun _ => rfl
  rw [print_html_data_eq, print_html_data_eq, List.nil_append, List.nil_append,
    range_split h.idx k hk, List.flatMap_append, List.flatMap_cons]
  simp only [List.append_assoc, hsub]

theorem rootRows_print_html_data (env : Env) (henv : env.NumbersPlain) (conf : GConf)
    (h : GHolder) (processed max_hit max_vis : Int) (panel : GOutput) :
    (rowTags (print_html_data env conf [] h processed max_hit max_vis panel)).countP
      (fun t => t == "tr class='root'".toList || t == "tr class='hide root'".toList)
      = h.idx := by
  rw [(rowTags_print_html_data env henv conf h processed max_hit max_vis panel).2]
  by_cases hs : h.sub_items_size = 0
  · have := countP_root_entries env.OUTPUT_N (fun _ => 0) (List.range h.idx)
    simpa [hs] using this
  · have := countP_root_entries env.OUTPUT_N (fun k => (children h k).length)
      (List.range h.idx)
    simpa [hs] using this

theorem int_of_float_hundred : int_of_float (100 : ℚ) = 100 := by
  unfold int_of_float
  rw [if_pos (by norm_num)]
  exact_mod_cast Int.floor_intCast (100 : Int)

theorem print_graph_full (env : Env) (max_hit max_vis hits visitors : Int)
    (hlh : print_graph_lh max_hit hits = 100) :
    print_graph env [] max_hit max_vis hits visitors
      = "<td class='graph'><div title='Hits:100%' class='bar' style='width:".toList
        ++ env.fmt_float 100 ++ "%;height:".toList
        ++ (if max_vis ≠ 0 then "8".toList else "16".toList) ++ "px'></div>".toList
        ++ (if max_vis ≠ 0 then
              "<div title='Visitors: ".toList
                ++ fmt_d (int_of_float (print_graph_lv max_vis visitors))
                ++ "%' class='bar light' style='width:".toList
                ++ env.fmt_float (print_graph_lv max_vis visitors)
                ++ "%;height:8px'></div>".toList
            else [])
        ++ "</td>\n".toList := by
  have h100 : fmt_d 100 = "100".toList := by decide
  have h8 : fmt_d 8 = "8".toList := by decide
  have h16 : fmt_d 16 = "16".toList := by decide
  have e1 : "<td class='graph'><div title='Hits:100%' class='bar' style='width:".toList
      = "<td class='graph'>".toList ++ ("<div title='Hits:".toList ++ ("100".toList
        ++ ("%' ".toList ++ ("class='bar'".toList ++ " style='width:".toList)))) := by decide
  have e2 : "%' class='bar light' style='width:".toList
      = "%' ".toList ++ ("class='bar light'".toList ++ " style='width:".toList) := by decide
  have e3 : "%;height:8px'></div>".toList
      = "%;height:".toList ++ ("8".toList ++ "px'></div>".toList) := by decide
  by_cases hv : max_vis = 0
  · simp only [print_graph, fprintf, hlh, int_of_float_hundred, h100, h16, hv, ne_eq,
      not_true_eq_false, if_false, e1, List.append_assoc, List.nil_append]
  · simp only [print_graph, fprintf, hlh, int_of_float_hundred, h100, h8, hv, ne_eq,
      not_false_eq_true, if_true, e1, e2, e3, List.append_assoc, List.nil_append]

/-! ## The claims -/

/-- C1: for every string `s`, `clean_output` appends to the stream exactly
the concatenation, in order, of the images of the characters of `s` under
the fixed map (apostrophe, double quote, ampersand, the two angle brackets
and the space go to their entity, every other character to itself). -/
theorem C1_clean_output_is_fixed_map (fp : FILE) (s : List Char) :
    clean_output fp s = fp ++ (s.map entity).flatten
    ∧ entity (Char.ofNat 39) = "&#39;".toList
    ∧ entity '"' = "&#34;".toList
    ∧ entity '&' = "&amp;".toList
    ∧ entity '<' = "&lt;".toList
    ∧ entity '>' = "&gt;".toList
    ∧ entity ' ' = "&nbsp;".toList
    ∧ ∀ c : Char, c ≠ Char.ofNat 39 → c ≠ '"' → c ≠ '&' → c ≠ '<' → c ≠ '>' →
        c ≠ ' ' → entity c = [c] := by
  refine ⟨?_, by decide, by decide, by decide, by decide, by decide, by decide, ?_⟩
  · rw [clean_output_eq, escapeForMarkup, List.flatMap_def]
  · intro c h1 h2 h3 h4 h5 h6
    simp [entity, h1, h2, h3, h4, h5, h6]

/-- C2: the data (label), protocol and method cells written by
`print_metrics` are exactly `<td>`, the `clean_output` image of the field,
`</td>` (the protocol and method cells being written when the configuration
appends them); they follow what the numeric columns write and precede the
graph cell.  Hence, whatever the field contains, the text between the tags
holds no raw angle bracket, apostrophe, double quote or space, and every
ampersand in it starts one of the six fixed entities. -/
theorem C2_text_cells_are_escaped (env : Env) (conf : GConf) (fp : FILE) (m : GMetrics)
    (max_hit max_vis : Int) (sub : Bool) (panel : GOutput) :
    print_metric_data fp m = fp ++ "<td>".toList ++ clean_output [] m.data ++ "</td>".toList
    ∧ print_metric_protocol conf fp m
        = fp ++ (if conf.append_protocol then
            "<td>".toList ++ clean_output [] m.protocol ++ "</td>".toList else [])
    ∧ print_metric_method conf fp m
        = fp ++ (if conf.append_method then
            "<td>".toList ++ clean_output [] m.method ++ "</td>".toList else [])
    ∧ print_metrics env conf fp m max_hit max_vis sub panel
        = print_metrics env conf fp m max_hit max_vis sub
            { panel with protocol := false, method := false, data := false, graph := false }
          ++ (if panel.protocol then print_metric_protocol conf [] m else [])
          ++ (if panel.method then print_metric_method conf [] m else [])
          ++ (if panel.data then print_metric_data [] m else [])
          ++ print_metrics env conf [] m max_hit max_vis sub
            { panel with visitors := false, hits := false, percent := false, bw := false,
                         avgts := false, protocol := false, method := false, data := false }
    ∧ ∀ field : List Char,
        RawFree (clean_output [] field)
        ∧ ∀ a r : List Char, clean_output [] field = a ++ '&' :: r →
            ∃ e ∈ sixEntities, e <+: '&' :: r := by
  refine ⟨?_, ?_, ?_, ?_, ?_⟩
  · simp [print_metric_data_eq, clean_output_eq]
  · simp [print_metric_protocol_eq, clean_output_eq]
  · simp [print_metric_method_eq, clean_output_eq]
  · rw [print_metrics_text, print_metrics_text env conf fp, print_metrics_text env conf []]
    simp only [print_metric_data_eq, print_metric_protocol_eq, print_metric_method_eq]
    simp
  · intro field
    rw [clean_output_eq, List.nil_append]
    exact ⟨escapeForMarkup_rawFree field, fun a r h => escapeForMarkup_amp field h⟩

/-- C3: for every holder whose module maximum hit count is positive and
every root entry `i < h->idx`: if the hit count of the entry is nonzero, the
primary bar percentage computed by `print_graph`, the maximum of 1 and
`hits * 100 / max_hit`, lies between 1 and 100, and so does the integer
written in the title of the bar; likewise the secondary bar, drawn when the
module maximum visitor count is nonzero, for a nonzero visitor count. -/
theorem C3_bar_percentage_in_range (h : GHolder) (i : Nat) (hi : i < h.idx)
    (hmax : 0 < get_max_hit h) :
    ((h.items i).metrics.hits ≠ 0 →
      print_graph_lh (get_max_hit h) (h.items i).metrics.hits
        = max 1 ((((h.items i).metrics.hits * 100 : Int) : ℚ) / (get_max_hit h : ℚ))
      ∧ 1 ≤ print_graph_lh (get_max_hit h) (h.items i).metrics.hits
      ∧ print_graph_lh (get_max_hit h) (h.items i).metrics.hits ≤ 100
      ∧ 1 ≤ int_of_float (print_graph_lh (get_max_hit h) (h.items i).metrics.hits)
      ∧ int_of_float (print_graph_lh (get_max_hit h) (h.items i).metrics.hits) ≤ 100)
    ∧ ((h.items i).metrics.visitors ≠ 0 → get_max_visitor h ≠ 0 →
      print_graph_lv (get_max_visitor h) (h.items i).metrics.visitors
        = max 1 ((((h.items i).metrics.visitors * 100 : Int) : ℚ) / (get_max_visitor h : ℚ))
      ∧ 1 ≤ print_graph_lv (get_max_visitor h) (h.items i).metrics.visitors
      ∧ print_graph_lv (get_max_visitor h) (h.items i).metrics.visitors ≤ 100
      ∧ 1 ≤ int_of_float (print_graph_lv (get_max_visitor h) (h.items i).metrics.visitors)
      ∧ int_of_float (print_graph_lv (get_max_visitor h) (h.items i).metrics.visitors)
          ≤ 100) := by
  refine ⟨fun _ => ⟨print_graph_lh_eq_max _ _, clamp_bounds _ _ hmax (get_max_hit_ge h i hi)⟩,
    fun _ hv => ⟨print_graph_lh_eq_max _ _, ?_⟩⟩
  have hge : 0 ≤ get_max_visitor h := get_max_visitor_loop_ge_init h h.idx 0 0
  have hpos : 0 < get_max_visitor h := lt_of_le_of_ne hge (Ne.symm hv)
  exact clamp_bounds _ _ hpos (get_max_visitor_ge h i hi)

theorem C3_bar_percentage_in_range_witness :
    (3 < sampleHolder.idx ∧ 0 < get_max_hit sampleHolder
      ∧ (sampleHolder.items 3).metrics.hits ≠ 0)
    ∧ 1 ≤ print_graph_lh (get_max_hit sampleHolder) (sampleHolder.items 3).metrics.hits
    ∧ print_graph_lh (get_max_hit sampleHolder) (sampleHolder.items 3).metrics.hits ≤ 100
    ∧ 1 ≤ int_of_float
        (print_graph_lh (get_max_hit sampleHolder) (sampleHolder.items 3).metrics.hits)
    ∧ int_of_float
        (print_graph_lh (get_max_hit sampleHolder) (sampleHolder.items 3).metrics.hits)
        ≤ 100 :=
  ⟨⟨by decide, by decide, by decide⟩,
    ((C3_bar_percentage_in_range sampleHolder 3 (by decide) (by decide)).1 (by decide)).2⟩

/-- C4: for every holder whose module maximum hit count is positive, rendered
by a strategy that draws bars (the visitor strategy, whose registry row has
the graph flag, or the generic strategy of a panel with the graph flag):
some root entry has the module maximum as its hit count, no root entry gets
a primary bar above 100, and for every root entry `i` whose hit count is the
module maximum, `set_data_metrics` handing its hit count on, the text the
strategy writes holds, after exactly `i` root rows, the root row of the
entry `i`, made of its cells followed by the graph cell whose primary bar
has the title `Hits:100%` and the width `100`: the primary bar percentage of
that row is exactly 100. -/
theorem C4_largest_bar_is_100 (env : Env) (henv : env.NumbersPlain) (conf : GConf)
    (h : GHolder) (processed : Int) (panel : GOutput)
    (hr : panel.render = Render.print_html_visitors
      ∨ panel.render = Render.print_html_common)
    (hg : panel.graph = true) (hmax : 0 < get_max_hit h) :
    (∀ (geoip : Bool), ∀ p ∈ paneling geoip,
        p.render = Render.print_html_visitors → p.graph = true)
    ∧ (∃ i, i < h.idx ∧ (h.items i).metrics.hits = get_max_hit h)
    ∧ (∀ j, j < h.idx → print_graph_lh (get_max_hit h) (h.items j).metrics.hits ≤ 100)
    ∧ ∀ i, i < h.idx → (h.items i).metrics.hits = get_max_hit h →
        (env.set_data_metrics (h.items i).metrics processed).hits
          = (h.items i).metrics.hits →
        print_graph_lh (get_max_hit h)
            (env.set_data_metrics (h.items i).metrics processed).hits = 100
        ∧ int_of_float (print_graph_lh (get_max_hit h)
            (env.set_data_metrics (h.items i).metrics processed).hits) = 100
        ∧ (∃ post, ∀ fp : FILE,
            panel.call_render env conf fp h processed
              = fp ++ print_table_head env [] h.module
                ++ "<table class=\"pure-table\">\n".toList
                ++ "<thead>\n".toList ++ head_row env conf panel h ++ "</thead>\n".toList
                ++ "<tbody>\n".toList
                ++ print_html_data env conf [] { h with idx := i } processed (get_max_hit h)
                    (get_max_visitor h) panel
                ++ (print_html_begin_tr [] (decide (i > env.OUTPUT_N)) false
                  ++ print_metrics env conf []
                      (env.set_data_metrics (h.items i).metrics processed) (get_max_hit h)
                      (get_max_visitor h) false { panel with graph := false }
                  ++ ("<td class='graph'><div title='Hits:100%' class='bar' style='width:".toList
                    ++ env.fmt_float 100 ++ "%;height:".toList
                    ++ (if get_max_visitor h ≠ 0 then "8".toList else "16".toList)
                    ++ "px'></div>".toList
                    ++ (if get_max_visitor h ≠ 0 then
                          "<div title='Visitors: ".toList
                            ++ fmt_d (int_of_float (print_graph_lv (get_max_visitor h)
                                (env.set_data_metrics (h.items i).metrics processed).visitors))
                            ++ "%' class='bar light' style='width:".toList
                            ++ env.fmt_float (print_graph_lv (get_max_visitor h)
                                (env.set_data_metrics (h.items i).metrics processed).visitors)
                            ++ "%;height:8px'></div>".toList
                        else [])
                    ++ "</td>\n".toList)
                  ++ "</tr>".toList)
                ++ post)
        ∧ (rowTags (print_html_data env conf [] { h with idx := i } processed (get_max_hit h)
              (get_max_visitor h) panel)).countP
            (fun t => t == "tr class='root'".toList || t == "tr class='hide root'".toList)
            = i := by
  have hmx : row_maxima panel h = (get_max_hit h, get_max_visitor h) := by
    unfold row_maxima
    rcases hr with hr | hr <;> simp [hr, hg]
  refine ⟨fun geoip p hp hpr => (paneling_visitors_flags geoip p hp hpr).2.2,
    get_max_hit_attained h hmax,
    fun j hj => (clamp_bounds _ _ hmax (get_max_hit_ge h j hj)).2.1, ?_⟩
  intro i hi he hset
  have key : print_graph_lh (get_max_hit h)
      (env.set_data_metrics (h.items i).metrics processed).hits = 100 := by
    rw [hset, he]
    unfold print_graph_lh
    simp only [get_percentage_self _ hmax]
    norm_num
  refine ⟨key, by rw [key, int_of_float_hundred], ?_,
    rootRows_print_html_data env henv conf { h with idx := i } processed _ _ panel⟩
  have hne : get_max_hit h ≠ 0 := ne_of_gt hmax
  have hrow : print_metrics env conf [] (env.set_data_metrics (h.items i).metrics processed)
      (get_max_hit h) (get_max_visitor h) false panel
      = print_metrics env conf [] (env.set_data_metrics (h.items i).metrics processed)
          (get_max_hit h) (get_max_visitor h) false { panel with graph := false }
        ++ print_graph env [] (get_max_hit h) (get_max_visitor h)
            (env.set_data_metrics (h.items i).metrics processed).hits
            (env.set_data_metrics (h.items i).metrics processed).visitors := by
    rw [print_metrics_text, print_metrics_text env conf []]
    simp [hg, hne]
  obtain ⟨rest, hs⟩ : ∃ rest,
      print_html_data env conf [] h processed (get_max_hit h) (get_max_visitor h) panel
        = print_html_data env conf [] { h with idx := i } processed (get_max_hit h)
            (get_max_visitor h) panel
          ++ (print_html_begin_tr [] (decide (i > env.OUTPUT_N)) false
            ++ print_metrics env conf [] (env.set_data_metrics (h.items i).metrics processed)
                (get_max_hit h) (get_max_visitor h) false panel
            ++ "</tr>".toList)
          ++ rest :=
    ⟨_, print_html_data_split env conf h processed _ _ panel i hi⟩
  refine ⟨rest ++ ("</tbody>\n".toList ++ "</table>\n".toList), fun fp => ?_⟩
  rw [call_render_parts, hmx, hs, hrow, print_graph_full env _ _ _ _ key]
  simp only [List.append_assoc]

theorem C4_largest_bar_is_100_witness :
    (sampleEnv.NumbersPlain ∧ samplePanel.render = Render.print_html_common
      ∧ samplePanel.graph = true ∧ 0 < get_max_hit sampleHolder ∧ 0 < sampleHolder.idx
      ∧ (sampleHolder.items 0).metrics.hits = get_max_hit sampleHolder)
    ∧ print_graph_lh (get_max_hit sampleHolder)
        (sampleEnv.set_data_metrics (sampleHolder.items 0).metrics 100).hits = 100
    ∧ int_of_float (print_graph_lh (get_max_hit sampleHolder)
        (sampleEnv.set_data_metrics (sampleHolder.items 0).metrics 100).hits) = 100 :=
  ⟨⟨sampleEnv_numbersPlain, rfl, rfl, by decide, by decide, by decide⟩,
    ((C4_largest_bar_is_100 sampleEnv sampleEnv_numbersPlain sampleConf sampleHolder 100
      samplePanel (Or.inr rfl) rfl (by decide)).2.2.2 0 (by decide) (by decide) rfl).1,
    ((C4_largest_bar_is_100 sampleEnv sampleEnv_numbersPlain sampleConf sampleHolder 100
      samplePanel (Or.inr rfl) rfl (by decide)).2.2.2 0 (by decide) (by decide) rfl).2.1⟩

/-- C5, as stated, fails: with a module maximum of 10 hits, an entry of 0
hits gets the primary bar percentage 1, not 0, and `print_graph` writes a
bar of title `Hits:1%`; likewise the secondary bar of 0 visitors. -/
theorem C5_zero_value_bar_counterexample :
    print_graph_lh 10 0 = 1 ∧ ¬ (print_graph_lh 10 0 = 0)
    ∧ print_graph_lv 10 0 = 1 ∧ ¬ (print_graph_lv 10 0 = 0)
    ∧ print_graph sampleEnv [] 10 0 0 0
      = ("<td class='graph'><div title='Hits:1%' class='bar' style='width:1%;height:16px'>"
          ++ "</div></td>\n").toList := by
  have h1 : print_graph_lh 10 0 = 1 := print_graph_lh_zero 10
  have h2 : print_graph_lv 10 0 = 1 := print_graph_lh_zero 10
  refine ⟨h1, by rw [h1]; norm_num, h2, by rw [h2]; norm_num, ?_⟩
  simp only [print_graph, fprintf, h1, sampleEnv, int_of_float_one]
  decide

/-- C5, as amended: in a panel that draws bars (nonzero module maximum), an
entry whose hit count, resp. visitor count, is exactly 0 gets the scaled
bar percentage 1: `print_graph` raises every percentage below 1 to the
minimum width 1, the percentage 0 of the value 0 included, and writes the
bar with the title `Hits:1%`. -/
theorem C5_zero_value_bar_is_one (max_hit max_vis : Int) (_hh : max_hit ≠ 0)
    (hv : max_vis ≠ 0) :
    print_graph_lh max_hit 0 = 1
    ∧ int_of_float (print_graph_lh max_hit 0) = 1
    ∧ print_graph_lv max_vis 0 = 1
    ∧ int_of_float (print_graph_lv max_vis 0) = 1
    ∧ (∀ hits : Int, get_percentage max_hit hits < 1 → print_graph_lh max_hit hits = 1)
    ∧ ∀ (env : Env) (fp : FILE) (visitors : Int),
        ∃ rest, print_graph env fp max_hit max_vis 0 visitors
          = fp ++ "<td class='graph'>".toList ++ "<div title='Hits:1%' ".toList
            ++ "class='bar' style='width:".toList ++ env.fmt_float 1 ++ rest := by
  have h1 : print_graph_lh max_hit 0 = 1 := print_graph_lh_zero max_hit
  have h2 : print_graph_lv max_vis 0 = 1 := print_graph_lh_zero max_vis
  refine ⟨h1, by rw [h1, int_of_float_one], h2, by rw [h2, int_of_float_one], ?_, ?_⟩
  · intro hits hlt
    unfold print_graph_lh
    simp only [hlt, if_true]
  · intro env fp visitors
    have h1d : fmt_d 1 = "1".toList := by decide
    have e1 : "<div title='Hits:1%' ".toList
        = "<div title='Hits:".toList ++ "1".toList ++ "%' ".toList := by decide
    have e2 : "class='bar' style='width:".toList
        = "class='bar'".toList ++ " style='width:".toList := by decide
    apply Exists.intro
    simp only [print_graph, fprintf, h1, int_of_float_one, h1d, hv, ne_eq, not_false_eq_true,
      if_true, e1, e2, List.append_assoc]
    rfl

theorem C5_zero_value_bar_is_one_witness :
    ((10 : Int) ≠ 0 ∧ (4 : Int) ≠ 0)
    ∧ print_graph_lh 10 0 = 1 ∧ int_of_float (print_graph_lh 10 0) = 1
    ∧ print_graph_lv 4 0 = 1 ∧ int_of_float (print_graph_lv 4 0) = 1 :=
  ⟨⟨by decide, by decide⟩,
    (C5_zero_value_bar_is_one 10 4 (by decide) (by decide)).1,
    (C5_zero_value_bar_is_one 10 4 (by decide) (by decide)).2.1,
    (C5_zero_value_bar_is_one 10 4 (by decide) (by decide)).2.2.1,
    (C5_zero_value_bar_is_one 10 4 (by decide) (by decide)).2.2.2.1⟩

/-- C6 fails on the code at the display cap itself: `print_html_data` tests
`i > OUTPUT_N`, so the root row of an index `i` is visible exactly when
`i <= OUTPUT_N`; with `OUTPUT_N = 10` and a holder of eleven entries the
root row of index 10 is opened as `<tr class='root'>`, and all eleven root
rows are visible, none hidden. -/
theorem C6_row_at_display_cap_is_visible :
    sampleEnv.OUTPUT_N = 10 ∧ sampleHolder.idx = 11
    ∧ print_html_begin_tr [] (decide (10 > sampleEnv.OUTPUT_N)) false
        = "<tr class='root'>".toList
    ∧ (rowTags (print_html_data sampleEnv sampleConf [] sampleHolder 100 20 11
          samplePanel)).count "tr class='root'".toList = 11
    ∧ (rowTags (print_html_data sampleEnv sampleConf [] sampleHolder 100 20 11
          samplePanel)).count "tr class='hide root'".toList = 0
    ∧ ∀ (env : Env) (i : Nat),
        print_html_begin_tr [] (decide (i > env.OUTPUT_N)) false
          = if i ≤ env.OUTPUT_N then "<tr class='root'>".toList
            else "<tr class='hide root'>".toList := by
  refine ⟨rfl, rfl, by decide, ?_, ?_, ?_⟩
  · rw [(rowTags_print_html_data sampleEnv sampleEnv_numbersPlain sampleConf sampleHolder
      100 20 11 samplePanel).2]
    decide
  · rw [(rowTags_print_html_data sampleEnv sampleEnv_numbersPlain sampleConf sampleHolder
      100 20 11 samplePanel).2]
    decide
  · intro env i
    by_cases hi : i ≤ env.OUTPUT_N
    · have : ¬ i > env.OUTPUT_N := by omega
      simp only [this, decide_False, hi, if_true]
      decide
    · have : i > env.OUTPUT_N := by omega
      simp only [this, decide_True, hi, if_false]
      decide

/-- C7: `print_html_data` writes, after what the stream holds, the rows of
the entries `0, 1, ..., h->idx - 1` in this order, each entry giving one
root row made of the cells of its own metrics (followed by its nested rows);
the text written holds exactly `h->idx` root rows, and the root row of the
entry `k` comes after exactly `k` root rows: no entry is reordered, dropped
or duplicated.  When `set_data_metrics` hands on the label, the hits and the
visitors of the entry and the panel shows these columns, the root row of
the entry `k` holds the visitors and the hits of the entry `k` in its first
two cells and its escaped label in its text cell. -/
theorem C7_one_root_row_per_entry_in_order (env : Env) (henv : env.NumbersPlain)
    (conf : GConf) (fp : FILE) (h : GHolder) (processed max_hit max_vis : Int)
    (panel : GOutput) :
    print_html_data env conf fp h processed max_hit max_vis panel
      = fp ++ (List.range h.idx).flatMap (fun k =>
          (print_html_begin_tr [] (decide (k > env.OUTPUT_N)) false
            ++ print_metrics env conf [] (env.set_data_metrics (h.items k).metrics processed)
                max_hit max_vis false panel
            ++ "</tr>".toList)
          ++ (if h.sub_items_size ≠ 0 then
                print_html_sub_items env conf [] h k processed max_hit max_vis panel
              else []))
    ∧ (rowTags (print_html_data env conf [] h processed max_hit max_vis panel)).countP
        (fun t => t == "tr class='root'".toList || t == "tr class='hide root'".toList)
        = h.idx
    ∧ ∀ k, k < h.idx →
        ∃ post, print_html_data env conf [] h processed max_hit max_vis panel
            = print_html_data env conf [] { h with idx := k } processed max_hit max_vis panel
              ++ (print_html_begin_tr [] (decide (k > env.OUTPUT_N)) false
                ++ print_metrics env conf []
                    (env.set_data_metrics (h.items k).metrics processed)
                    max_hit max_vis false panel
                ++ "</tr>".toList)
              ++ post
          ∧ (rowTags (print_html_data env conf [] { h with idx := k } processed max_hit
                max_vis panel)).countP
              (fun t => t == "tr class='root'".toList || t == "tr class='hide root'".toList)
              = k
          ∧ ((env.set_data_metrics (h.items k).metrics processed).data
                = (h.items k).metrics.data →
              (env.set_data_metrics (h.items k).metrics processed).hits
                = (h.items k).metrics.hits →
              (env.set_data_metrics (h.items k).metrics processed).visitors
                = (h.items k).metrics.visitors →
              panel.visitors = true → panel.hits = true → panel.data = true →
              ∃ mid rest, print_metrics env conf []
                  (env.set_data_metrics (h.items k).metrics processed) max_hit max_vis false
                  panel
                = "<td class='num'>".toList ++ env.fmt_num (h.items k).metrics.visitors
                  ++ "</td>".toList
                  ++ "<td class='num'>".toList ++ env.fmt_num (h.items k).metrics.hits
                  ++ "</td>".toList
                  ++ mid
                  ++ "<td>".toList ++ clean_output [] (h.items k).metrics.data
                  ++ "</td>".toList
                  ++ rest) := by
  have hcount : ∀ g : GHolder,
      (rowTags (print_html_data env conf [] g processed max_hit max_vis panel)).countP
        (fun t => t == "tr class='root'".toList || t == "tr class='hide root'".toList)
        = g.idx := by
    intro g
    rw [(rowTags_print_html_data env henv conf g processed max_hit max_vis panel).2]
    by_cases hs : g.sub_items_size = 0
    · have := countP_root_entries env.OUTPUT_N (fun _ => 0) (List.range g.idx)
      simpa [hs] using this
    · have := countP_root_entries env.OUTPUT_N (fun k => (children g k).length)
        (List.range g.idx)
      simpa [hs] using this
  refine ⟨print_html_data_eq env conf fp h processed max_hit max_vis panel, hcount h, ?_⟩
  intro k hk
  have hsub : ∀ j, print_html_sub_items env conf [] { h with idx := k } j processed max_hit
      max_vis panel = print_html_sub_items env conf [] h j processed max_hit max_vis panel :=
    fun _ => rfl
  refine ⟨(if h.sub_items_size ≠ 0 then
        print_html_sub_items env conf [] h k processed max_hit max_vis panel else [])
      ++ (List.range' (k + 1) (h.idx - k - 1)).flatMap (fun k =>
          (print_html_begin_tr [] (decide (k > env.OUTPUT_N)) false
            ++ print_metrics env conf [] (env.set_data_metrics (h.items k).metrics processed)
                max_hit max_vis false panel
            ++ "</tr>".toList)
          ++ (if h.sub_items_size ≠ 0 then
                print_html_sub_items env conf [] h k processed max_hit max_vis panel
              else [])), ?_, hcount { h with idx := k }, ?_⟩
  · rw [print_html_data_eq, print_html_data_eq, List.nil_append, List.nil_append,
      range_split h.idx k hk, List.flatMap_append, List.flatMap_cons]
    simp only [List.append_assoc, hsub]
  · intro hd hh hv pv ph pd
    refine ⟨print_metrics env conf [] (env.set_data_metrics (h.items k).metrics processed)
        max_hit max_vis false
        { panel with visitors := false, hits := false, data := false, graph := false },
      print_metrics env conf [] (env.set_data_metrics (h.items k).metrics processed)
        max_hit max_vis false
        { panel with visitors := false, hits := false, percent := false, bw := false,
                     avgts := false, protocol := false, method := false, data := false }, ?_⟩
    simp only [print_metrics_text, hd, hh, hv, pv, ph, pd, if_true, List.nil_append,
      clean_output_eq]
    simp

theorem C7_one_root_row_per_entry_in_order_witness :
    sampleEnv.NumbersPlain
    ∧ (rowTags (print_html_data sampleEnv sampleConf [] sampleHolder 100 20 11
          samplePanel)).countP
        (fun t => t == "tr class='root'".toList || t == "tr class='hide root'".toList)
        = sampleHolder.idx :=
  ⟨sampleEnv_numbersPlain,
    (C7_one_root_row_per_entry_in_order sampleEnv sampleEnv_numbersPlain sampleConf []
      sampleHolder 100 20 11 samplePanel).2.1⟩

/-- C8: for every holder with sub-items enabled, `print_html_data` writes
for each entry its root row, then one nested row per child of its detail
list, in list order, and only then the next entry; read back, the row
openers are, entry after entry, the opener of the root row followed by
exactly as many `<tr class='hide sub'>` as the entry has children, so every
nested row is hidden, whatever its position and the display cap. -/
theorem C8_nested_rows_follow_their_parent (env : Env) (henv : env.NumbersPlain)
    (conf : GConf) (fp : FILE) (h : GHolder) (processed max_hit max_vis : Int)
    (panel : GOutput) (hsub : h.sub_items_size ≠ 0) :
    print_html_data env conf fp h processed max_hit max_vis panel
      = fp ++ (List.range h.idx).flatMap (fun i =>
          (print_html_begin_tr [] (decide (i > env.OUTPUT_N)) false
            ++ print_metrics env conf [] (env.set_data_metrics (h.items i).metrics processed)
                max_hit max_vis false panel
            ++ "</tr>".toList)
          ++ (children h i).flatMap (fun child =>
              "<tr class='hide sub'>".toList
              ++ print_metrics env conf [] (env.set_data_metrics child.metrics processed)
                  max_hit max_vis true panel
              ++ "</tr>".toList))
    ∧ rowTags (print_html_data env conf [] h processed max_hit max_vis panel)
      = (List.range h.idx).flatMap (fun i =>
          (if i > env.OUTPUT_N then "tr class='hide root'".toList
            else "tr class='root'".toList)
          :: List.replicate (children h i).length "tr class='hide sub'".toList) := by
  constructor
  · rw [print_html_data_eq]
    simp only [hsub, ne_eq, not_false_eq_true, if_true, print_html_sub_items_eq,
      List.nil_append]
    rfl
  · rw [(rowTags_print_html_data env henv conf h processed max_hit max_vis panel).2]
    simp only [hsub, ne_eq, not_false_eq_true, if_true]

theorem C8_nested_rows_follow_their_parent_witness :
    (sampleEnv.NumbersPlain ∧ sampleHolder.sub_items_size ≠ 0)
    ∧ (children sampleHolder 0).length = 2
    ∧ rowTags (print_html_data sampleEnv sampleConf [] sampleHolder 100 20 11 samplePanel)
      = (List.range sampleHolder.idx).flatMap (fun i =>
          (if i > sampleEnv.OUTPUT_N then "tr class='hide root'".toList
            else "tr class='root'".toList)
          :: List.replicate (children sampleHolder i).length "tr class='hide sub'".toList) :=
  ⟨⟨sampleEnv_numbersPlain, by decide⟩, by decide,
    (C8_nested_rows_follow_their_parent sampleEnv sampleEnv_numbersPlain sampleConf []
      sampleHolder 100 20 11 samplePanel (by decide)).2⟩

/-- C9: for every panel schema, configuration and pair of module maxima,
`print_metrics` writes as many `<td>` cells for a nested row (`sub = 1`) as
for a root row (`sub = 0`), whatever the metrics of the two rows; where the
root row has a graph cell the nested row has a graph cell or the empty
placeholder cell `<td></td>`. -/
theorem C9_nested_row_has_as_many_cells (env : Env) (henv : env.NumbersPlain) (conf : GConf)
    (child parent : GMetrics) (max_hit max_vis : Int) (panel : GOutput) :
    countCells (print_metrics env conf [] child max_hit max_vis true panel)
      = countCells (print_metrics env conf [] parent max_hit max_vis false panel)
    ∧ print_metrics env conf [] child max_hit max_vis true panel
      = print_metrics env conf [] child max_hit max_vis true { panel with graph := false }
        ++ (if panel.graph = true ∧ max_hit ≠ 0 then
              (if panel.sub_graph then
                print_graph env [] max_hit max_vis child.hits child.visitors
              else "<td></td>".toList)
            else [])
    ∧ print_metrics env conf [] parent max_hit max_vis false panel
      = print_metrics env conf [] parent max_hit max_vis false { panel with graph := false }
        ++ (if panel.graph = true ∧ max_hit ≠ 0 then
              print_graph env [] max_hit max_vis parent.hits parent.visitors
            else []) := by
  refine ⟨?_, ?_, ?_⟩
  · rw [(Piece.of_print_metrics env henv conf child max_hit max_vis true panel).cells_eq,
      (Piece.of_print_metrics env henv conf parent max_hit max_vis false panel).cells_eq]
  · rw [print_metrics_text, print_metrics_text env conf []]
    by_cases hg : panel.graph = true ∧ max_hit ≠ 0
    · cases hs : panel.sub_graph <;> simp [hg, hs]
    · simp [hg]
      intro a b
      exact absurd ⟨a, b⟩ hg
  · rw [print_metrics_text, print_metrics_text env conf []]
    by_cases hg : panel.graph = true ∧ max_hit ≠ 0
    · simp [hg]
    · simp [hg]

theorem C9_nested_row_has_as_many_cells_witness :
    sampleEnv.NumbersPlain
    ∧ countCells (print_metrics sampleEnv sampleConf [] (sampleMetrics "Ubuntu" 12 7) 20 11 true
        samplePanel)
      = countCells (print_metrics sampleEnv sampleConf [] (sampleHolder.items 0).metrics 20 11
        false samplePanel) :=
  ⟨sampleEnv_numbersPlain,
    (C9_nested_row_has_as_many_cells sampleEnv sampleEnv_numbersPlain sampleConf
      (sampleMetrics "Ubuntu" 12 7) (sampleHolder.items 0).metrics 20 11 samplePanel).1⟩

/-- C10: for each of the three render strategies and every configuration, a
holder without entries (`idx = 0`) is rendered in full: the panel title,
the table with the complete header row of the strategy between `<thead>`
and `</thead>`, and a body that is exactly `<tbody>`, a newline, `</tbody>`,
a newline, without any row. -/
theorem C10_empty_holder_renders_header_and_empty_body (env : Env) (conf : GConf)
    (fp : FILE) (h : GHolder) (processed : Int) (panel : GOutput) (h0 : h.idx = 0) :
    print_html_visitors env conf fp h processed panel
      = fp ++ print_table_head env [] h.module ++ "<table class=\"pure-table\">\n".toList
        ++ "<thead>\n".toList
        ++ ("<tr>".toList ++ "<th>Visitors</th>".toList ++ "<th>Hits</th>".toList
          ++ "<th>%</th>".toList ++ "<th>Bandwidth</th>".toList
          ++ (if conf.serve_usecs then "<th>Time&nbsp;served</th>".toList else [])
          ++ "<th>Date</th>".toList
          ++ "<th class='fr'>&nbsp;<span class='r icon-expand' onclick='t(this)'></span></th>".toList
          ++ "</tr>".toList)
        ++ "</thead>\n".toList ++ "<tbody>\n</tbody>\n".toList ++ "</table>\n".toList
    ∧ print_html_requests env conf fp h processed panel
      = fp ++ print_table_head env [] h.module ++ "<table class=\"pure-table\">\n".toList
        ++ "<thead>\n".toList
        ++ ("<tr>".toList ++ "<th>Visitors</th>".toList ++ "<th>Hits</th>".toList
          ++ "<th>%</th>".toList ++ "<th>Bandwidth</th>".toList
          ++ (if conf.serve_usecs then "<th>Time&nbsp;served</th>".toList else [])
          ++ (if conf.append_protocol then "<th>Protocol</th>".toList else [])
          ++ (if conf.append_method then "<th>Method</th>".toList else [])
          ++ "<th>".toList
          ++ "Request <span class='r icon-expand' onclick='t(this)'></span>".toList
          ++ "</th>".toList ++ "</tr>".toList)
        ++ "</thead>\n".toList ++ "<tbody>\n</tbody>\n".toList ++ "</table>\n".toList
    ∧ print_html_common env conf fp h processed panel
      = fp ++ print_table_head env [] h.module ++ "<table class=\"pure-table\">\n".toList
        ++ "<thead>\n".toList
        ++ ("<tr>".toList ++ "<th>Visitors</th>".toList ++ "<th>Hits</th>".toList
          ++ "<th>%</th>".toList ++ "<th>Bandwidth</th>".toList
          ++ (if conf.serve_usecs then "<th>Time&nbsp;served</th>".toList else [])
          ++ "<th class=''>".toList ++ env.module_to_label h.module
          ++ "<span class='r icon-expand' onclick='t(this)'>&#8199;</span>".toList
          ++ "</th>".toList ++ "</tr>".toList)
        ++ "</thead>\n".toList ++ "<tbody>\n</tbody>\n".toList ++ "</table>\n".toList
    ∧ tags "<tbody>\n</tbody>\n".toList = ["tbody".toList, "/tbody".toList] := by
  have hb : "<tbody>\n</tbody>\n".toList = "<tbody>\n".toList ++ "</tbody>\n".toList := by
    decide
  have hq : "<th class=''>".toList = "<th class='".toList ++ "'>".toList := by decide
  refine ⟨?_, ?_, ?_, by decide⟩
  · simp only [print_html_visitors, print_html_data_of_idx_zero _ _ _ _ _ _ _ _ h0]
    rw [print_table_head_eq]
    simp only [print_html_begin_table, print_html_begin_thead, print_html_end_thead,
      print_html_begin_tbody, print_html_end_tbody, print_html_end_table, fprintf,
      ite_append_self]
    simp only [hb, List.append_assoc]
  · simp only [print_html_requests, print_html_data_of_idx_zero _ _ _ _ _ _ _ _ h0]
    rw [print_table_head_eq]
    simp only [print_html_begin_table, print_html_begin_thead, print_html_end_thead,
      print_html_begin_tbody, print_html_end_tbody, print_html_end_table, fprintf,
      ite_append_self]
    simp only [hb, List.append_assoc]
  · simp only [print_html_common, print_html_data_of_idx_zero _ _ _ _ _ _ _ _ h0,
      get_max_hit_of_idx_zero h h0, ite_self, ne_eq, not_true_eq_false, if_false]
    rw [print_table_head_eq]
    simp only [print_html_begin_table, print_html_begin_thead, print_html_end_thead,
      print_html_begin_tbody, print_html_end_tbody, print_html_end_table, fprintf,
      ite_append_self]
    simp only [hb, hq, List.append_assoc, List.append_nil]

theorem C10_empty_holder_renders_header_and_empty_body_witness :
    emptyHolder.idx = 0
    ∧ ∃ header, print_html_visitors sampleEnv sampleConf [] emptyHolder 100 samplePanel
      = print_table_head sampleEnv [] emptyHolder.module
        ++ "<table class=\"pure-table\">\n".toList ++ "<thead>\n".toList ++ header
        ++ "</thead>\n".toList ++ "<tbody>\n</tbody>\n".toList ++ "</table>\n".toList :=
  ⟨rfl, _, by
    simpa only [List.nil_append] using
      (C10_empty_holder_renders_header_and_empty_body sampleEnv sampleConf []
        emptyHolder 100 samplePanel rfl).1⟩

/-- C11: for every panel of the registry and every holder, whatever the
rest of the configuration: the header row written with the average-time
flag off is the header row written with the flag on without its
`Time served` column, one header column fewer; and every row, root or
nested, written with the flag off is the row written with the flag on
without its average-time cell, one cell fewer, the cells before and after
it being the same. -/
theorem C11_time_served_column_follows_the_flag (env : Env) (henv : env.NumbersPlain)
    (geoip : Bool) (panel : GOutput) (hp : panel ∈ paneling geoip) (conf : GConf)
    (h : GHolder) (hl : ∀ c ∈ env.module_to_label h.module, c ≠ '<') :
    (∀ (c : GConf) (fp : FILE) (processed : Int),
      panel.call_render env c fp h processed
        = fp ++ print_table_head env [] h.module ++ "<table class=\"pure-table\">\n".toList
          ++ "<thead>\n".toList ++ head_row env c panel h ++ "</thead>\n".toList
          ++ "<tbody>\n".toList
          ++ print_html_data env c [] h processed (row_maxima panel h).1
              (row_maxima panel h).2 panel
          ++ "</tbody>\n".toList ++ "</table>\n".toList)
    ∧ (∃ a b, head_row env { conf with serve_usecs := true } panel h
          = a ++ "<th>Time&nbsp;served</th>".toList ++ b
        ∧ head_row env { conf with serve_usecs := false } panel h = a ++ b)
    ∧ countHeads (head_row env { conf with serve_usecs := true } panel h)
        = countHeads (head_row env { conf with serve_usecs := false } panel h) + 1
    ∧ ∀ (m : GMetrics) (max_hit max_vis : Int) (sub : Bool),
        (∃ a b, print_metrics env { conf with serve_usecs := true } [] m max_hit max_vis sub
              panel
            = a ++ ("<td class='num'>".toList
                ++ clean_output [] (env.usecs_to_str m.avgts_nts) ++ "</td>".toList) ++ b
          ∧ print_metrics env { conf with serve_usecs := false } [] m max_hit max_vis sub
              panel
            = a ++ b)
        ∧ countCells (print_metrics env { conf with serve_usecs := true } [] m max_hit
            max_vis sub panel)
          = countCells (print_metrics env { conf with serve_usecs := false } [] m max_hit
            max_vis sub panel) + 1 := by
  have havg : panel.avgts = true := (paneling_flags geoip panel hp).2.2.2.2.1
  refine ⟨fun c fp processed => call_render_parts panel env c fp h processed, ?_, ?_, ?_⟩
  · cases hr : panel.render
    · refine ⟨"<tr>".toList ++ "<th>Visitors</th>".toList ++ "<th>Hits</th>".toList
        ++ "<th>%</th>".toList ++ "<th>Bandwidth</th>".toList,
        "<th>Date</th>".toList
        ++ "<th class='fr'>&nbsp;<span class='r icon-expand' onclick='t(this)'></span></th>".toList
        ++ "</tr>".toList, ?_, ?_⟩
      · simp only [head_row, hr, visitors_head_row, if_true, List.append_assoc]
      · simp only [head_row, hr, visitors_head_row, Bool.false_eq_true, if_false,
          List.append_nil, List.append_assoc]
    · refine ⟨"<tr>".toList ++ "<th>Visitors</th>".toList ++ "<th>Hits</th>".toList
        ++ "<th>%</th>".toList ++ "<th>Bandwidth</th>".toList,
        (if conf.append_protocol then "<th>Protocol</th>".toList else [])
        ++ (if conf.append_method then "<th>Method</th>".toList else [])
        ++ "<th>".toList
        ++ "Request <span class='r icon-expand' onclick='t(this)'></span>".toList
        ++ "</th>".toList ++ "</tr>".toList, ?_, ?_⟩
      · simp only [head_row, hr, requests_head_row, if_true, List.append_assoc]
      · simp only [head_row, hr, requests_head_row, Bool.false_eq_true, if_false,
          List.append_nil, List.append_assoc]
    · refine ⟨"<tr>".toList ++ "<th>Visitors</th>".toList ++ "<th>Hits</th>".toList
        ++ "<th>%</th>".toList ++ "<th>Bandwidth</th>".toList,
        (if (if panel.graph then get_max_hit h else 0) ≠ 0 then
            "<th>".toList ++ env.module_to_label h.module ++ "</th>".toList else [])
        ++ ("<th class='".toList
          ++ (if (if panel.graph then get_max_hit h else 0) ≠ 0 then "fr".toList else [])
          ++ "'>".toList
          ++ (if (if panel.graph then get_max_hit h else 0) ≠ 0 then []
              else env.module_to_label h.module))
        ++ "<span class='r icon-expand' onclick='t(this)'>&#8199;</span>".toList
        ++ "</th>".toList ++ "</tr>".toList, ?_, ?_⟩
      · simp only [head_row, hr, common_head_row, if_true, List.append_assoc]
      · simp only [head_row, hr, common_head_row, Bool.false_eq_true, if_false,
          List.append_nil, List.append_assoc]
  · rw [(HeadPiece.of_head_row env _ panel h hl).heads_eq,
      (HeadPiece.of_head_row env _ panel h hl).heads_eq]
    cases panel.render <;> simp <;> omega
  · intro m max_hit max_vis sub
    constructor
    · refine ⟨print_metrics env conf [] m max_hit max_vis sub
          { panel with avgts := false, protocol := false, method := false, data := false,
                       graph := false },
        print_metrics env conf [] m max_hit max_vis sub
          { panel with visitors := false, hits := false, percent := false, bw := false,
                       avgts := false }, ?_, ?_⟩
      · simp only [print_metrics_text, havg, clean_output_eq]
        simp
      · simp only [print_metrics_text, havg]
        simp
    · rw [(Piece.of_print_metrics env henv _ m max_hit max_vis sub panel).cells_eq,
        (Piece.of_print_metrics env henv _ m max_hit max_vis sub panel).cells_eq]
      simp [havg]
      omega

theorem C11_time_served_column_follows_the_flag_witness :
    (sampleEnv.NumbersPlain ∧ samplePanel ∈ paneling false
      ∧ ∀ c ∈ sampleEnv.module_to_label sampleHolder.module, c ≠ '<')
    ∧ countHeads (head_row sampleEnv { sampleConf with serve_usecs := true } samplePanel
        sampleHolder)
      = countHeads (head_row sampleEnv { sampleConf with serve_usecs := false } samplePanel
        sampleHolder) + 1 :=
  ⟨⟨sampleEnv_numbersPlain, by decide, by decide⟩,
    (C11_time_served_column_follows_the_flag sampleEnv sampleEnv_numbersPlain false
      samplePanel (by decide) sampleConf sampleHolder (by decide)).2.2.1⟩

/-- C12: in either build, for every module of the enumeration the registry
holds exactly one row whose module is that module and `panel_lookup`
returns this row; for a module without a registered row, as the
geolocation module when its row is not compiled in, `panel_lookup` returns
NULL. -/
theorem C12_panel_lookup_finds_the_one_row (geoip : Bool) (module : GModule) :
    (module ∈ modules geoip →
      ((paneling geoip).filter (fun row => decide (row.module = module))).length = 1
      ∧ ∃ row, panel_lookup geoip module = some row ∧ row.module = module
          ∧ row ∈ paneling geoip)
    ∧ ((∀ row ∈ paneling geoip, row.module ≠ module) → panel_lookup geoip module = none)
    ∧ panel_lookup false GModule.GEO_LOCATION = none := by
  refine ⟨?_, ?_, by decide⟩
  · cases geoip <;> cases module <;> decide
  · cases geoip <;> cases module <;> decide

/-- C13: `output_html` writes, after what the standard output holds, the
document header, the menu shell, the summary block, then for each module id
in ascending enumeration order the panel that the render strategy of the
registered row of the module writes for `holder[module]` with
`processed = logger->process`, and last the document footer; in the loop a
module for which `panel_lookup` returns NULL adds nothing and the modules
after it are still rendered. -/
theorem C13_document_is_assembled_in_order (env : Env) (store : Store) (ui : Ui)
    (assets : Assets) (conf : GConf) (geoip : Bool) (stdout : FILE) (now : List Char)
    (logger : GLog) (holder : GModule → GHolder) :
    output_html env store ui assets conf geoip stdout now logger holder
      = stdout ++ print_html_header assets [] now ++ print_pure_menu ui geoip [] now
        ++ (print_html_summary env store ui conf [] logger).1
        ++ (modules geoip).flatMap (fun module =>
            match panel_lookup geoip module with
            | none => []
            | some panel =>
              panel.call_render env (print_html_summary env store ui conf [] logger).2 []
                (holder module) logger.process)
        ++ print_html_footer []
    ∧ (∀ (c : GConf) (ms : List GModule) (fp : FILE),
        output_html_loop env c geoip logger holder ms fp
          = fp ++ ms.flatMap (fun module =>
              match panel_lookup geoip module with
              | none => []
              | some panel => panel.call_render env c [] (holder module) logger.process))
    ∧ (∀ (c : GConf) (module : GModule) (ms : List GModule) (fp : FILE),
        panel_lookup geoip module = none →
        output_html_loop env c geoip logger holder (module :: ms) fp
          = output_html_loop env c geoip logger holder ms fp)
    ∧ (print_html_summary env store ui conf [] logger).2.serve_usecs = conf.serve_usecs
    ∧ (print_html_summary env store ui conf [] logger).2.append_protocol
        = conf.append_protocol
    ∧ (print_html_summary env store ui conf [] logger).2.append_method = conf.append_method
    ∧ modules false
        = [.VISITORS, .REQUESTS, .REQUESTS_STATIC, .NOT_FOUND, .HOSTS, .OS, .BROWSERS,
            .REFERRERS, .REFERRING_SITES, .KEYPHRASES, .STATUS_CODES]
    ∧ modules true
        = [.VISITORS, .REQUESTS, .REQUESTS_STATIC, .NOT_FOUND, .HOSTS, .OS, .BROWSERS,
            .REFERRERS, .REFERRING_SITES, .KEYPHRASES, .GEO_LOCATION, .STATUS_CODES] := by
  have hconf : ∀ f : GConf → Bool, (∀ c x, f { c with ifile := x } = f c) →
      f (print_html_summary env store ui conf [] logger).2 = f conf := by
    intro f hf
    simp only [print_html_summary]
    split
    · exact hf _ _
    · rfl
  refine ⟨?_, fun c ms fp => output_html_loop_eq env c geoip logger holder ms fp, ?_,
    hconf (fun c => c.serve_usecs) (fun _ _ => rfl),
    hconf (fun c => c.append_protocol) (fun _ _ => rfl),
    hconf (fun c => c.append_method) (fun _ _ => rfl), rfl, rfl⟩
  · simp only [output_html]
    rw [print_html_footer_eq, output_html_loop_eq,
      (print_html_summary_eq env store ui conf _ logger).1,
      (print_html_summary_eq env store ui conf _ logger).2, print_pure_menu_eq,
      print_html_header_eq]
  · intro c module ms fp hnone
    simp only [output_html_loop, hnone]

set_option maxRecDepth 8000 in
/-- C14: for every logger, `print_html_summary` opens the summary block
with six counters, each under its own title; the counters titled
`T_REQUESTS`, `T_FAILED` and `T_EXCLUDE_IP` show `logger->process`,
`logger->invalid` and `logger->exclude_ip`, written by the conversion `%'d`;
in the C locale the values 1000, 5 and 2 are written `1000`, `5`, `2`. -/
theorem C14_summary_shows_the_three_counters (env : Env) (store : Store) (ui : Ui)
    (conf : GConf) (fp : FILE) (logger : GLog) :
    (∃ rest, (print_html_summary env store ui conf fp logger).1
      = fp ++ print_html_begin_grid (print_html_h2 [] ui.T_HEAD (some ui.GENER_ID))
        ++ summary_counter ui.T_REQUESTS
            ("<h3 class='label green'>".toList ++ env.fmt_num logger.process ++ "</h3>".toList)
        ++ summary_counter ui.T_FAILED
            ("<h3 class='label red'>".toList ++ env.fmt_num logger.invalid ++ "</h3>".toList)
        ++ summary_counter ui.T_GEN_TIME
            ("<h3 class='label'>".toList
              ++ fmt_d ((store.end_proc - store.start_proc) % 2 ^ 64) ++ " secs</h3>".toList)
        ++ summary_counter ui.T_UNIQUE_VIS
            ("<h3 class='label'>".toList
              ++ env.fmt_num (store.get_ht_size_by_metric .VISITORS .MTRC_UNIQMAP)
              ++ "</h3>".toList)
        ++ summary_counter ui.T_UNIQUE_FIL
            ("<h3 class='label'>".toList
              ++ env.fmt_num (store.get_ht_size_by_metric .REQUESTS .MTRC_DATAMAP)
              ++ "</h3>".toList)
        ++ summary_counter ui.T_EXCLUDE_IP
            ("<h3 class='label'>".toList ++ env.fmt_num logger.exclude_ip ++ "</h3>".toList)
        ++ rest)
    ∧ summary_counter sampleUi.T_REQUESTS
        ("<h3 class='label green'>".toList ++ sampleEnv.fmt_num sampleLog.process
          ++ "</h3>".toList)
      = ("<div class='col-1-6'><div class='grid-module'>"
          ++ "<div class='col-title trunc'>Total Requests</div>"
          ++ "<h3 class='label green'>1000</h3></div></div>").toList
    ∧ sampleEnv.fmt_num sampleLog.invalid = "5".toList
    ∧ sampleEnv.fmt_num sampleLog.exclude_ip = "2".toList := by
  refine ⟨?_, by decide, by decide, by decide⟩
  apply Exists.intro
  simp only [print_html_summary, summary_counter, print_html_h2, print_html_begin_grid,
    print_html_begin_col_wrap, print_html_begin_grid_col, print_html_begin_grid_module,
    print_html_col_title, print_html_end_col_wrap, print_html_end_div, fprintf,
    List.append_assoc, List.nil_append]
  rfl

set_option maxRecDepth 8000 in
/-- C15: when the input path `conf.ifile` is NULL, `print_html_summary`
runs to its end, streamed input or not: it sets `conf.ifile` to `STDIN`,
and the summary block ends with the log-path counter showing the literal
`STDIN`, followed by the end of the grid. -/
theorem C15_null_input_path_is_shown_as_STDIN (env : Env) (store : Store) (ui : Ui)
    (conf : GConf) (fp : FILE) (logger : GLog) (hnull : conf.ifile = none) :
    (print_html_summary env store ui conf fp logger).2
      = { conf with ifile := some "STDIN".toList }
    ∧ ∃ pre, (print_html_summary env store ui conf fp logger).1
      = pre ++ summary_counter ui.T_LOG_PATH
          ("<h3 class='trunc' style='color:#242424'>".toList ++ "STDIN".toList
            ++ "</h3>".toList)
        ++ "</div>".toList := by
  constructor
  · simp only [print_html_summary, hnull, if_true]
  · have h1 : ∃ pre, (print_html_summary env store ui conf fp logger).1
        = print_html_end_div (print_html_end_col_wrap (fprintf (print_html_col_title
            (print_html_begin_col_wrap pre 6) ui.T_LOG_PATH)
            ("<h3 class='trunc' style='color:#242424'>".toList ++ "STDIN".toList
              ++ "</h3>".toList))) := by
      apply Exists.intro
      simp only [print_html_summary, hnull, if_true, Option.getD_some]
      rfl
    obtain ⟨pre, h⟩ := h1
    exact ⟨pre, by rw [h, summary_counter_eq]; rfl⟩

theorem C15_null_input_path_is_shown_as_STDIN_witness :
    stdinConf.ifile = none
    ∧ (print_html_summary sampleEnv sampleStore sampleUi stdinConf [] sampleLog).2
      = { stdinConf with ifile := some "STDIN".toList } :=
  ⟨rfl, (C15_null_input_path_is_shown_as_STDIN sampleEnv sampleStore sampleUi stdinConf []
    sampleLog rfl).1⟩

/-- C16, as stated, fails: for a NULL label `clean_output` reads `*s`
through the NULL pointer, so `print_metric_data` faults after `<td>` and
writes no empty cell. -/
theorem C16_null_label_counterexample :
    clean_output_ptr [] none = none
    ∧ print_metric_data_ptr [] none = none
    ∧ print_metric_data_ptr [] none ≠ some "<td></td>".toList := by
  decide

/-- C16, as amended: an entry whose label is the empty string is rendered
as the empty cell `<td></td>`, and every label that is a string is rendered
as `print_metric_data` renders it, without failure; `clean_output` has no
test for a NULL string. -/
theorem C16_empty_label_is_an_empty_cell (fp : FILE) (m : GMetrics) :
    print_metric_data_ptr fp (some []) = some (fp ++ "<td></td>".toList)
    ∧ clean_output_ptr fp (some []) = some fp
    ∧ print_metric_data_ptr fp (some m.data) = some (print_metric_data fp m)
    ∧ (m.data = [] → print_metric_data fp m = fp ++ "<td></td>".toList) := by
  have e : "<td></td>".toList = "<td>".toList ++ "</td>".toList := by decide
  refine ⟨?_, rfl, rfl, ?_⟩
  · simp only [print_metric_data_ptr, clean_output_ptr, clean_output, fprintf, e,
      List.append_assoc]
  · intro h
    rw [print_metric_data_eq, h, e]
    simp [escapeForMarkup]

/-- C17: `get_max_hit`, resp. `get_max_visitor`, is at least 0 and at least
the hit count, resp. visitor count, of each of the first `h->idx` root
entries, and it is 0 or the value of one of them; it is the same for two
holders whose first `idx` root entries have the same counts, whatever their
detail lists hold. -/
theorem C17_module_maxima_over_root_entries (h : GHolder) :
    (0 ≤ get_max_hit h
      ∧ (∀ i, i < h.idx → (h.items i).metrics.hits ≤ get_max_hit h)
      ∧ (get_max_hit h = 0 ∨ ∃ i, i < h.idx ∧ (h.items i).metrics.hits = get_max_hit h))
    ∧ (0 ≤ get_max_visitor h
      ∧ (∀ i, i < h.idx → (h.items i).metrics.visitors ≤ get_max_visitor h)
      ∧ (get_max_visitor h = 0
          ∨ ∃ i, i < h.idx ∧ (h.items i).metrics.visitors = get_max_visitor h))
    ∧ ∀ g : GHolder, g.idx = h.idx →
        (∀ i, i < h.idx → (g.items i).metrics = (h.items i).metrics) →
        get_max_hit g = get_max_hit h ∧ get_max_visitor g = get_max_visitor h := by
  refine ⟨⟨get_max_hit_loop_ge_init h h.idx 0 0, get_max_hit_ge h, ?_⟩,
    ⟨get_max_visitor_loop_ge_init h h.idx 0 0, get_max_visitor_ge h, ?_⟩, ?_⟩
  · rcases get_max_hit_loop_attained h h.idx 0 0 with h0 | ⟨j, _, h2, h3⟩
    · exact Or.inl h0
    · exact Or.inr ⟨j, by omega, h3⟩
  · rcases get_max_visitor_loop_attained h h.idx 0 0 with h0 | ⟨j, _, h2, h3⟩
    · exact Or.inl h0
    · exact Or.inr ⟨j, by omega, h3⟩
  · intro g hidx hm
    unfold get_max_hit get_max_visitor
    rw [hidx]
    exact ⟨get_max_hit_loop_congr g h h.idx 0 0 (fun j _ hj => by rw [hm j (by omega)]),
      get_max_visitor_loop_congr g h h.idx 0 0 (fun j _ hj => by rw [hm j (by omega)])⟩

/-- C18: in the generic strategy, for every panel of the registry that uses
it, every configuration and every holder, `max_hit` being the module
maximum the strategy computes (0 without the graph flag): the header row
ends with a label column followed by a label-less graph column when
`max_hit` is nonzero, and with the single label column otherwise; the rows
carry a graph cell exactly when `max_hit` is nonzero, which needs the graph
flag; and the header row has as many columns as every root row has
cells. -/
theorem C18_generic_header_matches_the_rows (env : Env) (henv : env.NumbersPlain)
    (geoip : Bool) (panel : GOutput) (hp : panel ∈ paneling geoip)
    (hr : panel.render = Render.print_html_common) (conf : GConf) (h : GHolder)
    (hl : ∀ c ∈ env.module_to_label h.module, c ≠ '<') (max_hit max_vis : Int)
    (hmh : max_hit = if panel.graph then get_max_hit h else 0)
    (hmv : max_vis = if panel.graph then get_max_visitor h else 0) :
    (∀ (fp : FILE) (processed : Int),
      print_html_common env conf fp h processed panel
        = fp ++ print_table_head env [] h.module ++ "<table class=\"pure-table\">\n".toList
          ++ "<thead>\n".toList
          ++ common_head_row conf (env.module_to_label h.module) max_hit
          ++ "</thead>\n".toList ++ "<tbody>\n".toList
          ++ print_html_data env conf [] h processed max_hit max_vis panel
          ++ "</tbody>\n".toList ++ "</table>\n".toList)
    ∧ (max_hit ≠ 0 → panel.graph = true)
    ∧ (max_hit ≠ 0 →
        ∃ a, common_head_row conf (env.module_to_label h.module) max_hit
          = a ++ ("<th>".toList ++ env.module_to_label h.module ++ "</th>".toList)
            ++ ("<th class='fr'>".toList
              ++ "<span class='r icon-expand' onclick='t(this)'>&#8199;</span>".toList
              ++ "</th>".toList)
            ++ "</tr>".toList)
    ∧ (max_hit = 0 →
        ∃ a, common_head_row conf (env.module_to_label h.module) max_hit
          = a ++ ("<th class=''>".toList ++ env.module_to_label h.module
              ++ "<span class='r icon-expand' onclick='t(this)'>&#8199;</span>".toList
              ++ "</th>".toList)
            ++ "</tr>".toList)
    ∧ ∀ m : GMetrics,
        print_metrics env conf [] m max_hit max_vis false panel
          = print_metrics env conf [] m max_hit max_vis false { panel with graph := false }
            ++ (if max_hit ≠ 0 then print_graph env [] max_hit max_vis m.hits m.visitors
                else [])
        ∧ countHeads (common_head_row conf (env.module_to_label h.module) max_hit)
          = countCells (print_metrics env conf [] m max_hit max_vis false panel) := by
  obtain ⟨f1, f2, f3, f4, f5, f6, f7⟩ := paneling_flags geoip panel hp
  obtain ⟨f8, f9⟩ := f7 hr
  have hgraph : max_hit ≠ 0 → panel.graph = true := by
    intro hne
    by_contra hg
    simp only [Bool.not_eq_true] at hg
    rw [hg] at hmh
    exact hne (by simpa using hmh)
  have e1 : "<th class='fr'>".toList = "<th class='".toList ++ "fr".toList ++ "'>".toList := by
    decide
  have e2 : "<th class=''>".toList = "<th class='".toList ++ "'>".toList := by decide
  refine ⟨?_, hgraph, ?_, ?_, ?_⟩
  · intro fp processed
    rw [print_html_common_eq, ← hmh, ← hmv]
  · intro hne
    refine ⟨"<tr>".toList ++ "<th>Visitors</th>".toList ++ "<th>Hits</th>".toList
      ++ "<th>%</th>".toList ++ "<th>Bandwidth</th>".toList
      ++ (if conf.serve_usecs then "<th>Time&nbsp;served</th>".toList else []), ?_⟩
    simp only [common_head_row, hne, ne_eq, not_false_eq_true, if_true, e1, List.append_nil,
      List.append_assoc]
  · intro h0
    refine ⟨"<tr>".toList ++ "<th>Visitors</th>".toList ++ "<th>Hits</th>".toList
      ++ "<th>%</th>".toList ++ "<th>Bandwidth</th>".toList
      ++ (if conf.serve_usecs then "<th>Time&nbsp;served</th>".toList else []), ?_⟩
    simp only [common_head_row, h0, ne_eq, not_true_eq_false, if_false, e2, List.append_nil,
      List.append_assoc]
  · intro m
    constructor
    · rw [print_metrics_text, print_metrics_text env conf []]
      by_cases hne : max_hit = 0
      · simp [hne]
      · simp [hne, hgraph hne]
    · rw [(HeadPiece.of_common_head_row conf _ max_hit hl).heads_eq,
        (Piece.of_print_metrics env henv conf m max_hit max_vis false panel).cells_eq]
      by_cases hne : max_hit = 0
      · simp [f1, f2, f3, f4, f5, f6, f8, f9, hne]
      · simp [f1, f2, f3, f4, f5, f6, f8, f9, hne, hgraph hne]

theorem C18_generic_header_matches_the_rows_witness :
    (sampleEnv.NumbersPlain ∧ samplePanel ∈ paneling false
      ∧ samplePanel.render = Render.print_html_common
      ∧ (∀ c ∈ sampleEnv.module_to_label sampleHolder.module, c ≠ '<')
      ∧ (20 : Int) = (if samplePanel.graph then get_max_hit sampleHolder else 0)
      ∧ (11 : Int) = (if samplePanel.graph then get_max_visitor sampleHolder else 0))
    ∧ countHeads (common_head_row sampleConf (sampleEnv.module_to_label sampleHolder.module) 20)
      = countCells (print_metrics sampleEnv sampleConf [] (sampleHolder.items 0).metrics 20 11
          false samplePanel) :=
  ⟨⟨sampleEnv_numbersPlain, by decide, by decide, by decide, by decide, by decide⟩,
    ((C18_generic_header_matches_the_rows sampleEnv sampleEnv_numbersPlain false samplePanel
      (by decide) (by decide) sampleConf sampleHolder (by decide) 20 11 (by decide)
      (by decide)).2.2.2.2 (sampleHolder.items 0).metrics).2⟩

set_option maxRecDepth 8000 in
/-- C19, as stated, fails: in the operating systems panel (graphs for
sub-rows), a holder whose only root entry has 5 hits and whose child has 10
hits has the module maximum 5, so `print_graph` scales the child's bar to
200 and writes the title `Hits:200%`. -/
theorem C19_nested_bar_counterexample :
    get_max_hit lopsidedHolder = 5
    ∧ (children lopsidedHolder 0).map (fun child => child.metrics.hits) = [10]
    ∧ samplePanel.graph = true ∧ samplePanel.sub_graph = true
    ∧ print_graph_lh (get_max_hit lopsidedHolder) 10 = 200
    ∧ ¬ (print_graph_lh (get_max_hit lopsidedHolder) 10 ≤ 100)
    ∧ print_graph sampleEnv [] 5 1 10 1
      = ("<td class='graph'><div title='Hits:200%' class='bar' style='width:200%;height:8px'>"
          ++ "</div><div title='Visitors: 100%' class='bar light' "
          ++ "style='width:100%;height:8px'></div></td>\n").toList
    ∧ print_html_sub_items sampleEnv sampleConf [] lopsidedHolder 0 100 5 1 samplePanel
      = "<tr class='hide sub'>".toList
        ++ print_metrics sampleEnv sampleConf []
            (sampleEnv.set_data_metrics (sampleMetrics "Ubuntu" 10 1) 100) 5 1 true
            { samplePanel with graph := false }
        ++ print_graph sampleEnv [] 5 1 10 1 ++ "</tr>".toList := by
  have hmax : get_max_hit lopsidedHolder = 5 := by decide
  have h1 : print_graph_lh 5 10 = 200 := by
    unfold print_graph_lh get_percentage
    norm_num
  have h2 : print_graph_lv 1 1 = 100 := by
    unfold print_graph_lv get_percentage
    norm_num
  have i1 : int_of_float (200 : ℚ) = 200 := by exact_mod_cast int_of_float_intCast 200 (by decide)
  have i2 : int_of_float (100 : ℚ) = 100 := by exact_mod_cast int_of_float_intCast 100 (by decide)
  refine ⟨hmax, by decide, rfl, rfl, by rw [hmax, h1], by rw [hmax, h1]; norm_num, ?_, ?_⟩
  · simp only [print_graph, fprintf, h1, h2, sampleEnv, i1, i2]
    decide
  · have hch : (lopsidedHolder.items 0).sub_list = some ⟨[⟨sampleMetrics "Ubuntu" 10 1⟩]⟩ := rfl
    have hh : (sampleEnv.set_data_metrics (sampleMetrics "Ubuntu" 10 1) 100).hits = 10 := rfl
    have hv : (sampleEnv.set_data_metrics (sampleMetrics "Ubuntu" 10 1) 100).visitors = 1 := rfl
    rw [print_html_sub_items_eq, hch]
    simp only [List.flatMap_cons, List.flatMap_nil, List.append_nil, List.nil_append,
      print_metrics_text, hh, hv]
    simp only [samplePanel, Bool.false_eq_true, if_true, if_false, List.append_nil,
      List.nil_append, ne_eq, and_true, true_and, and_false, false_and, not_true_eq_false,
      not_false_eq_true, List.append_assoc, reduceCtorEq]
    norm_num

/-- C19, as amended: for every nested entry rendered with a bar, the scaled
primary bar percentage is at least 1, and it lies between 1 and 100
whenever the child's hit count is nonzero and not above the maximum hit
count of the module's root entries, as when it is not above the hit count
of its own root entry. -/
theorem C19_nested_bar_in_range_below_the_maximum (h : GHolder) (i : Nat)
    (child : GSubItem) (_hc : child ∈ children h i) (hmax : 0 < get_max_hit h)
    (_hne : child.metrics.hits ≠ 0) (hle : child.metrics.hits ≤ get_max_hit h) :
    1 ≤ print_graph_lh (get_max_hit h) child.metrics.hits
    ∧ print_graph_lh (get_max_hit h) child.metrics.hits ≤ 100
    ∧ 1 ≤ int_of_float (print_graph_lh (get_max_hit h) child.metrics.hits)
    ∧ int_of_float (print_graph_lh (get_max_hit h) child.metrics.hits) ≤ 100
    ∧ (∀ hits : Int, 1 ≤ print_graph_lh (get_max_hit h) hits)
    ∧ (i < h.idx → ∀ other ∈ children h i,
        other.metrics.hits ≤ (h.items i).metrics.hits →
        print_graph_lh (get_max_hit h) other.metrics.hits ≤ 100) := by
  obtain ⟨b1, b2, b3, b4⟩ := clamp_bounds _ _ hmax hle
  refine ⟨b1, b2, b3, b4, ?_, ?_⟩
  · intro hits
    unfold print_graph_lh
    simp only
    split
    · exact le_refl _
    · linarith
  · intro hi other _ hle'
    exact (clamp_bounds _ _ hmax (le_trans hle' (get_max_hit_ge h i hi))).2.1

theorem C19_nested_bar_in_range_below_the_maximum_witness :
    ((⟨sampleMetrics "Ubuntu" 12 7⟩ : GSubItem) ∈ children sampleHolder 0
      ∧ 0 < get_max_hit sampleHolder
      ∧ (sampleMetrics "Ubuntu" 12 7).hits ≠ 0
      ∧ (sampleMetrics "Ubuntu" 12 7).hits ≤ get_max_hit sampleHolder)
    ∧ 1 ≤ print_graph_lh (get_max_hit sampleHolder) (sampleMetrics "Ubuntu" 12 7).hits
    ∧ print_graph_lh (get_max_hit sampleHolder) (sampleMetrics "Ubuntu" 12 7).hits ≤ 100 :=
  ⟨⟨by simp [children, sampleHolder], by decide, by decide, by decide⟩,
    (C19_nested_bar_in_range_below_the_maximum sampleHolder 0 ⟨sampleMetrics "Ubuntu" 12 7⟩
      (by simp [children, sampleHolder]) (by decide) (by decide) (by decide)).1,
    (C19_nested_bar_in_range_below_the_maximum sampleHolder 0 ⟨sampleMetrics "Ubuntu" 12 7⟩
      (by simp [children, sampleHolder]) (by decide) (by decide) (by decide)).2.1⟩

/-- C20: `clean_output` is injective: two strings with the same escaped
output are equal, also when they hold text that looks like an entity; hence
some decoder recovers every string from its escaped form. -/
theorem C20_clean_output_is_injective :
    (∀ (fp : FILE) (s t : List Char), clean_output fp s = clean_output fp t → s = t)
    ∧ (∃ decode : List Char → List Char, ∀ s, decode (clean_output [] s) = s)
    ∧ clean_output [] "&amp;".toList = "&amp;amp;".toList
    ∧ clean_output [] "&".toList = "&amp;".toList
    ∧ clean_output [] "&#39;".toList = "&amp;#39;".toList := by
  have hinj : ∀ (fp : FILE) (s t : List Char),
      clean_output fp s = clean_output fp t → s = t := by
    intro fp s t h
    rw [clean_output_eq, clean_output_eq] at h
    exact escapeForMarkup_injective s t (List.append_cancel_left h)
  refine ⟨hinj, ?_, by decide, by decide, by decide⟩
  have hi : Function.Injective (clean_output []) := fun s t h => hinj [] s t h
  exact ⟨Function.invFun (clean_output []), fun s => Function.leftInverse_invFun hi s⟩

/-- C21, as stated, fails: in the visitors panel, for a holder whose only
root entry has 0 hits the module maximum is 0, so the root row gets no graph
cell: with the average-time column shown the header row has 7 columns and
the root row 6 cells. -/
theorem C21_zero_maximum_counterexample :
    visitorsPanel ∈ paneling false ∧ zeroHolder.idx = 1 ∧ get_max_hit zeroHolder = 0
    ∧ rowTags (print_html_data sampleEnv sampleConf [] zeroHolder 100 (get_max_hit zeroHolder)
        (get_max_visitor zeroHolder) visitorsPanel) = ["tr class='root'".toList]
    ∧ countHeads (visitors_head_row sampleConf) = 7
    ∧ countCells (print_metrics sampleEnv sampleConf []
        (sampleEnv.set_data_metrics (zeroHolder.items 0).metrics 100) (get_max_hit zeroHolder)
        (get_max_visitor zeroHolder) false visitorsPanel) = 6 := by
  refine ⟨by decide, rfl, by decide, ?_, by decide, ?_⟩
  · rw [(rowTags_print_html_data sampleEnv sampleEnv_numbersPlain sampleConf zeroHolder 100 _ _
      visitorsPanel).2]
    decide
  · rw [(Piece.of_print_metrics sampleEnv sampleEnv_numbersPlain sampleConf _ _ _ false
      visitorsPanel).cells_eq]
    decide

/-- C21, as amended: in the visitor strategy, for every panel of the
registry that uses it, every configuration and every holder whose module
maximum hit count is nonzero, every root row has exactly as many cells as
the header row has columns, the graph cell standing under the trailing
expand-icon column; when the module maximum is 0 the rows have no graph
cell, one cell fewer than the header row has columns. -/
theorem C21_visitor_rows_match_the_header (env : Env) (henv : env.NumbersPlain)
    (geoip : Bool) (panel : GOutput) (hp : panel ∈ paneling geoip)
    (hr : panel.render = Render.print_html_visitors) (conf : GConf) (h : GHolder) :
    (∀ (fp : FILE) (processed : Int),
      print_html_visitors env conf fp h processed panel
        = fp ++ print_table_head env [] h.module ++ "<table class=\"pure-table\">\n".toList
          ++ "<thead>\n".toList ++ visitors_head_row conf ++ "</thead>\n".toList
          ++ "<tbody>\n".toList
          ++ print_html_data env conf [] h processed (get_max_hit h) (get_max_visitor h) panel
          ++ "</tbody>\n".toList ++ "</table>\n".toList)
    ∧ (get_max_hit h ≠ 0 → ∀ m : GMetrics,
        countCells (print_metrics env conf [] m (get_max_hit h) (get_max_visitor h) false panel)
          = countHeads (visitors_head_row conf)
        ∧ print_metrics env conf [] m (get_max_hit h) (get_max_visitor h) false panel
          = print_metrics env conf [] m (get_max_hit h) (get_max_visitor h) false
              { panel with graph := false }
            ++ print_graph env [] (get_max_hit h) (get_max_visitor h) m.hits m.visitors)
    ∧ (get_max_hit h = 0 → ∀ m : GMetrics,
        countCells (print_metrics env conf [] m (get_max_hit h) (get_max_visitor h) false panel)
            + 1
          = countHeads (visitors_head_row conf)
        ∧ print_metrics env conf [] m (get_max_hit h) (get_max_visitor h) false panel
          = print_metrics env conf [] m (get_max_hit h) (get_max_visitor h) false
              { panel with graph := false }) := by
  obtain ⟨f1, f2, f3, f4, f5, f6, _⟩ := paneling_flags geoip panel hp
  obtain ⟨f8, f9, f10⟩ := paneling_visitors_flags geoip panel hp hr
  refine ⟨fun fp processed => print_html_visitors_eq env conf fp h processed panel, ?_, ?_⟩
  · intro hne m
    constructor
    · rw [(HeadPiece.of_visitors_head_row conf).heads_eq,
        (Piece.of_print_metrics env henv conf m _ _ false panel).cells_eq]
      simp [f1, f2, f3, f4, f5, f6, f8, f9, f10, hne]
      omega
    · rw [print_metrics_text, print_metrics_text env conf []]
      simp [f10, hne]
  · intro h0 m
    constructor
    · rw [(HeadPiece.of_visitors_head_row conf).heads_eq,
        (Piece.of_print_metrics env henv conf m _ _ false panel).cells_eq]
      simp [f1, f2, f3, f4, f5, f6, f8, f9, f10, h0]
      omega
    · rw [print_metrics_text, print_metrics_text env conf []]
      simp [h0]

theorem C21_visitor_rows_match_the_header_witness :
    (sampleEnv.NumbersPlain ∧ visitorsPanel ∈ paneling false
      ∧ visitorsPanel.render = Render.print_html_visitors ∧ get_max_hit sampleHolder ≠ 0)
    ∧ countCells (print_metrics sampleEnv sampleConf [] (sampleHolder.items 0).metrics
        (get_max_hit sampleHolder) (get_max_visitor sampleHolder) false visitorsPanel)
      = countHeads (visitors_head_row sampleConf) :=
  ⟨⟨sampleEnv_numbersPlain, by decide, by decide, by decide⟩,
    ((C21_visitor_rows_match_the_header sampleEnv sampleEnv_numbersPlain false visitorsPanel
      (by decide) (by decide) sampleConf sampleHolder).2.1 (by decide)
      (sampleHolder.items 0).metrics).1⟩

/-- C22, as stated, fails: the request strategy hands `max_hit = 0` to the
rows, so in the requests panel the root entry of 20 hits, the maximum of the
module, gets the percentage cell `<span class=''>` without the `max`
class. -/
theorem C22_request_rows_counterexample :
    requestsPanel ∈ paneling false
    ∧ row_maxima requestsPanel sampleHolder = (0, 0)
    ∧ (sampleHolder.items 0).metrics.hits = 20 ∧ get_max_hit sampleHolder = 20
    ∧ (sampleEnv.set_data_metrics (sampleHolder.items 0).metrics 100).hits = 20
    ∧ print_metric_percent sampleEnv []
        (sampleEnv.set_data_metrics (sampleHolder.items 0).metrics 100)
        (decide ((row_maxima requestsPanel sampleHolder).1
          = (sampleEnv.set_data_metrics (sampleHolder.items 0).metrics 100).hits))
      = "<td class='num'><span class=''>20%</span></td>".toList := by
  have hp : (sampleEnv.set_data_metrics (sampleHolder.items 0).metrics 100).percent = 20 := by
    show get_percentage 100 20 = 20
    unfold get_percentage
    norm_num
  have hi : int_of_float (20 : ℚ) = 20 := by
    exact_mod_cast int_of_float_intCast 20 (by decide)
  have hh : (sampleEnv.set_data_metrics (sampleHolder.items 0).metrics 100).hits = 20 := rfl
  have hm : (row_maxima requestsPanel sampleHolder).1 = 0 := rfl
  refine ⟨by decide, rfl, rfl, by decide, hh, ?_⟩
  rw [print_metric_percent_eq, hp, hh, hm]
  simp only [sampleEnv, hi]
  decide

/-- C22, as amended: for every render strategy and every holder, the
percentage cell of a row carries the `max` class if and only if the hit
count of the row equals the `max_hit` its strategy hands to the rows: the
module maximum `get_max_hit(h)` in the visitor strategy and in the generic
strategy of a panel with the graph flag, and 0 in the request strategy and
in the generic strategy of a panel without the graph flag, where no row of
a nonzero hit count carries it. -/
theorem C22_max_class_follows_the_handed_maximum (env : Env) (henv : env.NumbersPlain)
    (conf : GConf) (panel : GOutput) (h : GHolder) :
    (∀ (fp : FILE) (processed : Int),
      panel.call_render env conf fp h processed
        = fp ++ print_table_head env [] h.module ++ "<table class=\"pure-table\">\n".toList
          ++ "<thead>\n".toList ++ head_row env conf panel h ++ "</thead>\n".toList
          ++ "<tbody>\n".toList
          ++ print_html_data env conf [] h processed (row_maxima panel h).1
              (row_maxima panel h).2 panel
          ++ "</tbody>\n".toList ++ "</table>\n".toList)
    ∧ (row_maxima panel h).1
        = (match panel.render with
          | .print_html_visitors => get_max_hit h
          | .print_html_requests => 0
          | .print_html_common => if panel.graph then get_max_hit h else 0)
    ∧ ∀ (m : GMetrics) (max_hit max_vis : Int) (sub : Bool),
        print_metrics env conf [] m max_hit max_vis sub panel
          = print_metrics env conf [] m max_hit max_vis sub
              { panel with percent := false, bw := false, avgts := false, protocol := false,
                           method := false, data := false, graph := false }
            ++ (if panel.percent then
                  print_metric_percent env [] m (decide (max_hit = m.hits)) else [])
            ++ print_metrics env conf [] m max_hit max_vis sub
              { panel with visitors := false, hits := false, percent := false }
        ∧ tags (print_metric_percent env [] m (decide (max_hit = m.hits)))
          = ["td class='num'".toList,
              if max_hit = m.hits then "span class='max'".toList else "span class=''".toList,
              "/span".toList, "/td".toList]
        ∧ ("span class='max'".toList ∈ tags (print_metric_percent env [] m
              (decide (max_hit = m.hits))) ↔ max_hit = m.hits) := by
  refine ⟨fun fp processed => call_render_parts panel env conf fp h processed, ?_, ?_⟩
  · unfold row_maxima
    cases panel.render <;> rfl
  · intro m max_hit max_vis sub
    have ht := tags_print_metric_percent env henv m (decide (max_hit = m.hits))
    simp only [decide_eq_true_eq] at ht
    refine ⟨?_, ht, ?_⟩
    · simp only [print_metrics_text, print_metric_percent_eq]
      simp
    · rw [ht]
      by_cases he : max_hit = m.hits
      · simp [he]
      · simp only [he, if_false, iff_false]
        decide

theorem C22_max_class_follows_the_handed_maximum_witness :
    sampleEnv.NumbersPlain
    ∧ ("span class='max'".toList ∈ tags (print_metric_percent sampleEnv []
          (sampleHolder.items 0).metrics
          (decide ((20 : Int) = (sampleHolder.items 0).metrics.hits)))
        ↔ (20 : Int) = (sampleHolder.items 0).metrics.hits) :=
  ⟨sampleEnv_numbersPlain,
    ((C22_max_class_follows_the_handed_maximum sampleEnv sampleEnv_numbersPlain sampleConf
      samplePanel sampleHolder).2.2 (sampleHolder.items 0).metrics 20 11 false).2.2⟩

end GoAccess
